import Mathlib

/-!
Verification development for the video-script session controller
(`useVideoScriptLogic` hook, conversation persistence service and streaming
generation endpoint).

The embedding models the JavaScript/TypeScript sources as follows:

* Pure helpers become Lean functions on `String`/`List`.
* The remote Firestore collection becomes an explicit `Store` value threaded
  through `saveOrUpdateConversation` (src/unnamed/part_007, identical in
  structure to src/src/services/conversationService.ts).
* The stateful hook (src/unnamed/part_000) becomes a state machine
  `HookState` with a `step` function over an explicit `Event` trace.  Async
  code is split at its `await` points: the synchronous code up to the first
  `await` of a handler is one event, and each continuation (a response
  arriving, one streaming-loop iteration, stream end) is another event.
  Results of external calls (summaries, saved record ids, fetched
  conversation lists) appear as event parameters, since they are inputs from
  the environment.  Every loop iteration of the streaming reader (one
  `reader.read()` resolution together with its synchronous continuation) is
  one atomic event, matching the single-threaded event loop.
* `AbortController` instances are numbered by a counter `nextCtrl`;
  `abortControllerRef.current` is `currentCtrl`; calling `.abort()` adds the
  controller's number to `aborted`.  A pending awaited read belonging to an
  aborted controller rejects with `AbortError`, which the code catches
  silently ("Script generation was cancelled").
* `fetchConversationsCallback` (src/unnamed/part_000 lines 126-147) is a
  `useCallback` whose body reads `hasExplicitlyReset`,
  `activeConversationId`, `currentSummary` and `generatedScript` from the
  closure captured when the callback was created (deps at line 147), and
  only `fullConversationTextRef.current` through a ref.  A standalone
  refresh is therefore two events: `refreshIssue` records a `FetchSnap` of
  the four closure-captured fields, and `refreshArrive` runs the callback
  body with that snapshot (plus the fresh buffer ref) against the
  then-current state.  The refreshes nested inside the summarize/generate
  completion handlers are modelled with the snapshot taken at the
  completion state itself; on every path those completions reach, the
  guard is false already from the completion state (a freshly committed
  summary or an adopted record id), so that choice is inessential there.
* JavaScript string truthiness (`if (str)`) is `str ≠ ""`; `text.trim()` is
  modelled by `jsTrim` below (drop ASCII whitespace from both ends), which is
  executable in the kernel.
-/

namespace Studio

/-- Model of JavaScript `String.prototype.trim`: drop whitespace characters
from both ends.  (JS also strips some additional Unicode space characters;
for this development the ASCII whitespace set of `Char.isWhitespace`
suffices, since `trim` is only ever used on ordinary text.) -/
def jsTrim (s : String) : String :=
  ⟨((s.data.dropWhile Char.isWhitespace).reverse.dropWhile Char.isWhitespace).reverse⟩

/-! ## The remote record store and `conversationService`
(src/unnamed/part_007; same structure as src/src/services/conversationService.ts) -/

/-- A persisted conversation document (`Conversation`,
src/unnamed/part_007 lines 5-13).  Firestore server timestamps are
modelled as the `now` argument of each operation. -/
structure ConversationRecord where
  id : Nat
  userId : String
  summary : String
  script : String
  fullConversation : String
  createdAt : Nat
  lastOpenedAt : Nat
deriving DecidableEq, Repr

/-- The per-user `conversations` collection, flattened: each record carries
its `userId`, and document ids are allocated from `nextId`. -/
structure Store where
  records : List ConversationRecord
  nextId : Nat
deriving DecidableEq, Repr

def requiredErr : String := "User ID and summary are required to save conversation."

/-- `saveOrUpdateConversation` (src/unnamed/part_007 lines 15-59).
`updateDoc` on a missing document throws, hence the existence check on the
explicit-id path.  The dedup query (`where summary == ..., limit 1`) is the
first record of the user whose summary equals the given one. -/
def saveOrUpdateConversation (store : Store) (now : Nat)
    (userId summary script fullConversationText : String)
    (conversationIdToUpdate : Option Nat) : Except String (Nat × Store) :=
  if userId = "" ∨ summary = "" then
    .error requiredErr
  else
    match conversationIdToUpdate with
    | some cid =>
        if store.records.any (fun r => r.id == cid && r.userId == userId) then
          .ok (cid, { store with records := store.records.map (fun r =>
            if r.id == cid && r.userId == userId then
              { r with userId := userId, summary := summary, script := script,
                       fullConversation := fullConversationText, lastOpenedAt := now }
            else r) })
        else
          .error "updateDoc: no document to update"
    | none =>
        match store.records.find? (fun r => r.userId == userId && r.summary == summary) with
        | some existingDoc =>
            .ok (existingDoc.id, { store with records := store.records.map (fun r =>
              if r.id == existingDoc.id then
                { r with userId := userId, summary := summary, script := script,
                         fullConversation := fullConversationText, lastOpenedAt := now }
              else r) })
        | none =>
            .ok (store.nextId,
              { records := store.records ++
                  [{ id := store.nextId, userId := userId, summary := summary,
                     script := script, fullConversation := fullConversationText,
                     createdAt := now, lastOpenedAt := now }],
                nextId := store.nextId + 1 })

/-! ## The session controller hook (src/unnamed/part_000) -/

/-- A conversation as seen by the hook after `getConversations`
(fields used by `fetchConversationsCallback` and `handleHistoryItemClick`). -/
structure Convo where
  id : Nat
  summary : String
  script : String
  fullConversation : String
  lastOpenedAt : Nat
deriving DecidableEq, Repr

/-- The lifecycle of one `handleGenerateScript` invocation, used to track
where each in-flight call stands between its `await` points. -/
inductive GenRun where
  | idle
  | inlineSum (idea : String)
  | fetching (ctrl : Nat) (summaryFor : String)
  | streaming (ctrl : Nat) (summaryFor : String) (acc : String)
  | finished (ctrl : Nat)
  | cancelled (ctrl : Nat)
  | errored (ctrl : Nat)
  | returned
deriving DecidableEq, Repr

/-- The abort controller a `GenRun` holds, if it has created one yet. -/
def genCtrl : GenRun → Option Nat
  | .idle => none
  | .inlineSum _ => none
  | .fetching c _ => some c
  | .streaming c _ _ => some c
  | .finished c => some c
  | .cancelled c => some c
  | .errored c => some c
  | .returned => none

/-- The fields of `useVideoScriptLogic` state that the `useCallback`
closure of `fetchConversationsCallback` (src/unnamed/part_000 lines
126-147) captures at creation time.  `fullConversationText` is NOT among
them: the callback body reads it through `fullConversationTextRef.current`,
which is always fresh. -/
structure FetchSnap where
  hasExplicitlyReset : Bool
  activeConversationId : Option Nat
  currentSummary : String
  generatedScript : String
deriving DecidableEq, Repr

/-- The in-memory state of `useVideoScriptLogic` (src/unnamed/part_000),
together with the bookkeeping needed to replay its async control flow:
`pendingSum` are issued but not yet completed `summarizeVideoIdea` calls
(tagged with the text snapshot they were issued against), `pendingFetch`
are issued but not yet completed standalone `fetchConversationsCallback`
calls (tagged with the closure snapshot they were created against),
`gens` tracks each
`handleGenerateScript` invocation, `aborted` the abort controllers whose
`abort()` has been called, and `saves` logs the successful
`saveOrUpdateConversation` calls as (summary, script) pairs.
`errorToasts` counts destructive toasts ("Failed to ...") shown to the user. -/
structure HookState where
  fullConversationText : String
  currentSummary : String
  generatedScript : String
  activeConversationId : Option Nat
  hasExplicitlyReset : Bool
  isSummarizing : Bool
  isGeneratingScript : Bool
  conversations : List Convo
  pendingSum : List (Nat × String)
  nextReq : Nat
  pendingFetch : List (Nat × FetchSnap)
  nextFetch : Nat
  gens : Nat → GenRun
  nextCtrl : Nat
  currentCtrl : Option Nat
  aborted : List Nat
  saves : List (String × String)
  errorToasts : Nat

def initHook : HookState :=
  { fullConversationText := "", currentSummary := "", generatedScript := ""
  , activeConversationId := none, hasExplicitlyReset := false
  , isSummarizing := false, isGeneratingScript := false
  , conversations := [], pendingSum := [], nextReq := 0
  , pendingFetch := [], nextFetch := 0
  , gens := fun _ => .idle, nextCtrl := 0, currentCtrl := none
  , aborted := [], saves := [], errorToasts := 0 }

def fallbackSummary : String :=
  "Could not get a summary. Try rephrasing or adding more details."

def failedSummary : String := "Failed to get summary. Please try again."

/-- `convos.sort((a, b) => b.lastOpenedAt - a.lastOpenedAt)[0]`: the
conversation with the greatest `lastOpenedAt` (first such on ties). -/
def mostRecent (l : List Convo) : Option Convo :=
  l.foldl (fun best c =>
    match best with
    | none => some c
    | some b => if b.lastOpenedAt < c.lastOpenedAt then some c else some b) none

/-- The closure snapshot `fetchConversationsCallback` would capture if it
were (re)created in state `s`. -/
def fetchSnapOf (s : HookState) : FetchSnap :=
  { hasExplicitlyReset := s.hasExplicitlyReset
  , activeConversationId := s.activeConversationId
  , currentSummary := s.currentSummary
  , generatedScript := s.generatedScript }

/-- The auto-load guard of `fetchConversationsCallback`
(src/unnamed/part_000 line 133):
`!hasExplicitlyReset && !activeConversationId && convos.length > 0 &&
!fullConversationTextRef.current && !currentSummary && !generatedScript`.
All conjuncts except the buffer read the `useCallback` closure snapshot
`snap`; the buffer is read through the ref (`bufferRef`). -/
def autoLoadCond (snap : FetchSnap) (bufferRef : String) (fetched : List Convo) : Bool :=
  !snap.hasExplicitlyReset && snap.activeConversationId == none && !fetched.isEmpty
    && bufferRef == "" && snap.currentSummary == ""
    && snap.generatedScript == ""

/-- Body of `fetchConversationsCallback` (src/unnamed/part_000 lines
126-147) once `getConversations` has returned `fetched`: the guard is
evaluated against the closure snapshot `snap` and the fresh buffer ref,
while the effects apply to the state `s` current at completion. -/
def fetchConversationsRun (snap : FetchSnap) (s : HookState) (fetched : List Convo) :
    HookState :=
  let s1 := { s with conversations := fetched }
  if autoLoadCond snap s.fullConversationText fetched then
    match mostRecent fetched with
    | some c =>
        { s1 with activeConversationId := some c.id
                , currentSummary := c.summary
                , generatedScript := c.script
                , fullConversationText :=
                    if c.fullConversation ≠ "" then c.fullConversation else c.summary }
    | none => s1
  else s1

/-- A standalone `fetchConversationsCallback()` invocation (e.g. the
mount/navigation effect at src/unnamed/part_000 lines 149-154) is issued:
record the request id together with the closure snapshot current at issue
time. -/
def fetchConversationsIssue (s : HookState) : HookState :=
  { s with pendingFetch := s.pendingFetch ++ [(s.nextFetch, fetchSnapOf s)]
         , nextFetch := s.nextFetch + 1 }

/-- The `getConversations` promise of issued fetch `reqId` resolves with
`fetched`: run the callback body with the snapshot captured at issue time
against the current state. -/
def fetchConversationsArrive (s : HookState) (reqId : Nat) (fetched : List Convo) :
    HookState :=
  match s.pendingFetch.find? (fun p => p.1 == reqId) with
  | some pr =>
      fetchConversationsRun pr.2
        { s with pendingFetch := s.pendingFetch.filter (fun p => p.1 != reqId) } fetched
  | none => s

/-- Synchronous part of `handleSummarizeIdea` (src/unnamed/part_000 lines
164-194), up to the `await summarizeVideoIdea` call: merge the chunk into
the buffer, clear downstream state, and either clear the summary (empty
buffer) or issue a summarization request tagged `nextReq`.
Note that with an active conversation id the generated script is NOT
cleared, and the active id is never cleared here. -/
def handleSummarizeIdeaStart (s : HookState) (newIdeaChunk : String) : HookState :=
  let cleared :=
    if jsTrim newIdeaChunk ≠ "" then
      let a := if s.activeConversationId = none then { s with generatedScript := "" } else s
      { a with hasExplicitlyReset := false }
    else s
  let textThatWillBeSummarized :=
    if jsTrim newIdeaChunk ≠ "" then
      if s.fullConversationText ≠ "" then
        s.fullConversationText ++ "\n\n" ++ newIdeaChunk
      else newIdeaChunk
    else s.fullConversationText
  let s1 := { cleared with fullConversationText := textThatWillBeSummarized }
  if jsTrim textThatWillBeSummarized = "" then
    { s1 with currentSummary := "", isSummarizing := false }
  else
    { s1 with isSummarizing := true
            , pendingSum := s1.pendingSum ++ [(s1.nextReq, textThatWillBeSummarized)]
            , nextReq := s1.nextReq + 1 }

/-- Continuation of `handleSummarizeIdea` (src/unnamed/part_000 lines
195-237) when the summarization call tagged `reqId` completes.  `resp` is
`some summaryText` on success and `none` when `summarizeVideoIdea` threw;
`saveResult` is the id returned by `saveOrUpdateConversation` (`none` when
the save threw); `fetched` is what the nested `fetchConversationsCallback`
fetch returns.  The guard on `pendingSum` only encodes that each issued
call completes exactly once — the source has NO staleness check: any
completing call unconditionally commits its summary. -/
def handleSummarizeIdeaComplete (s : HookState) (reqId : Nat) (resp : Option String)
    (saveResult : Option Nat) (fetched : List Convo) : HookState :=
  if (s.pendingSum.find? (fun p => p.1 == reqId)).isSome then
    let s0 := { s with pendingSum := s.pendingSum.filter (fun p => p.1 != reqId) }
    match resp with
    | some t =>
        let newSummary := if t ≠ "" then t else fallbackSummary
        let s1 := { s0 with currentSummary := newSummary }
        match saveResult with
        | some savedId =>
            let s2 := { s1 with saves := s1.saves ++ [(newSummary, s1.generatedScript)] }
            let s3 := if s2.activeConversationId = none then
                        { s2 with activeConversationId := some savedId }
                      else s2
            let s4 := fetchConversationsRun (fetchSnapOf s3) s3 fetched
            { s4 with isSummarizing := false }
        | none =>
            { s1 with errorToasts := s1.errorToasts + 1, isSummarizing := false }
    | none =>
        { s0 with currentSummary := failedSummary, isSummarizing := false }
  else s

/-- Synchronous part of `handleGenerateScript` (src/unnamed/part_000 lines
502-565) for invocation `i`: abort any existing generation, early-return if
there is nothing to generate from, clear the script, and — when a summary
already exists — create the new abort controller and issue the streaming
fetch.  When no summary exists the call first awaits an inline
summarization (`GenRun.inlineSum`).  The aborted previous controller is
deliberately NOT removed from `currentCtrl` here, exactly as in the source. -/
def handleGenerateScriptStart (s : HookState) (i : Nat) : HookState :=
  let sAb :=
    match s.currentCtrl with
    | some c => { s with aborted := c :: s.aborted }
    | none => s
  let ideaToUseForScript :=
    if s.currentSummary ≠ "" then s.currentSummary else jsTrim s.fullConversationText
  if ideaToUseForScript = "" then
    { sAb with gens := Function.update sAb.gens i .returned }
  else
    let sCl := { sAb with generatedScript := "", isGeneratingScript := true }
    if s.currentSummary ≠ "" then
      { sCl with gens := Function.update sCl.gens i (.fetching sCl.nextCtrl s.currentSummary)
               , currentCtrl := some sCl.nextCtrl
               , nextCtrl := sCl.nextCtrl + 1 }
    else
      { sCl with isSummarizing := true
               , gens := Function.update sCl.gens i (.inlineSum (jsTrim s.fullConversationText)) }

/-- Continuation of `handleGenerateScript` when the inline
pre-generation summarization (lines 527-541) completes for invocation `i`. -/
def handleGenerateScriptInline (s : HookState) (i : Nat) (resp : Option String) : HookState :=
  match s.gens i with
  | .inlineSum _ =>
      match resp with
      | some t =>
          let summaryForScript := if t ≠ "" then t else fallbackSummary
          { s with currentSummary := summaryForScript
                 , isSummarizing := false
                 , gens := Function.update s.gens i (.fetching s.nextCtrl summaryForScript)
                 , currentCtrl := some s.nextCtrl
                 , nextCtrl := s.nextCtrl + 1 }
      | none =>
          { s with isGeneratingScript := false, isSummarizing := false
                 , gens := Function.update s.gens i .returned }
  | _ => s

/-- The `await fetch(...)` of invocation `i` resolves (lines 553-574).
If the invocation's controller was aborted meanwhile, the await rejects
with `AbortError`, which the catch block swallows silently; a non-ok
status throws an `HTTP error`, which reaches the user as a destructive
toast.  The `finally` block runs on both paths. -/
def handleGenerateScriptRespond (s : HookState) (i : Nat) (ok : Bool) : HookState :=
  match s.gens i with
  | .fetching c summaryForScript =>
      if c ∈ s.aborted then
        { s with gens := Function.update s.gens i (.cancelled c)
               , isGeneratingScript := false, currentCtrl := none }
      else if ok then
        { s with gens := Function.update s.gens i (.streaming c summaryForScript "") }
      else
        { s with gens := Function.update s.gens i (.errored c)
               , errorToasts := s.errorToasts + 1
               , isGeneratingScript := false, currentCtrl := none }
  | _ => s

/-- One iteration of the streaming read loop (lines 580-589) of invocation
`i` delivering `fragment`: append it to the local accumulator and publish
the accumulated script.  A read under an aborted controller rejects
(`AbortError`, silent) instead. -/
def handleGenerateScriptFrag (s : HookState) (i : Nat) (fragment : String) : HookState :=
  match s.gens i with
  | .streaming c summaryForScript acc =>
      if c ∈ s.aborted then
        { s with gens := Function.update s.gens i (.cancelled c)
               , isGeneratingScript := false, currentCtrl := none }
      else
        { s with generatedScript := acc ++ fragment
               , gens := Function.update s.gens i (.streaming c summaryForScript (acc ++ fragment)) }
  | _ => s

/-- The stream of invocation `i` ends (lines 580-600): persist the
completed script via `saveOrUpdateConversation` (`saveResult` is the
returned id, `none` when the save threw — caught by the outer catch as a
destructive toast), adopt the returned id, and refresh the conversation
list (`fetched`).  A read under an aborted controller rejects instead. -/
def handleGenerateScriptDone (s : HookState) (i : Nat) (saveResult : Option Nat)
    (fetched : List Convo) : HookState :=
  match s.gens i with
  | .streaming c summaryForScript acc =>
      if c ∈ s.aborted then
        { s with gens := Function.update s.gens i (.cancelled c)
               , isGeneratingScript := false, currentCtrl := none }
      else
        match saveResult with
        | some savedId =>
            let s1 := { s with saves := s.saves ++ [(summaryForScript, acc)]
                             , activeConversationId := some savedId }
            let s2 := fetchConversationsRun (fetchSnapOf s1) s1 fetched
            { s2 with gens := Function.update s2.gens i (.finished c)
                    , isGeneratingScript := false, currentCtrl := none }
        | none =>
            { s with errorToasts := s.errorToasts + 1
                   , gens := Function.update s.gens i (.errored c)
                   , isGeneratingScript := false, currentCtrl := none }
  | _ => s

/-- `handleNewIdea` (src/unnamed/part_000 lines 629-641); the video-form
and sheet fields are not modelled. -/
def handleNewIdea (s : HookState) : HookState :=
  { s with fullConversationText := "", currentSummary := "", generatedScript := ""
         , activeConversationId := none, hasExplicitlyReset := true }

/-- `handleHistoryItemClick` (src/unnamed/part_000 lines 644-658); the
remote `updateLastOpened` touches only the store, not session state. -/
def handleHistoryItemClick (s : HookState) (c : Convo) : HookState :=
  { s with currentSummary := c.summary
         , generatedScript := c.script
         , fullConversationText := if c.fullConversation ≠ "" then c.fullConversation else c.summary
         , activeConversationId := some c.id
         , hasExplicitlyReset := false }

/-- The observable events of one session: user actions and resolutions of
the hook's awaited external calls. -/
inductive Event where
  | chunk (text : String)
  | sumArrive (reqId : Nat) (resp : Option String) (saveResult : Option Nat) (fetched : List Convo)
  | genStart (i : Nat)
  | genInline (i : Nat) (resp : Option String)
  | genRespond (i : Nat) (ok : Bool)
  | genFrag (i : Nat) (fragment : String)
  | genDone (i : Nat) (saveResult : Option Nat) (fetched : List Convo)
  | newIdea
  | historyClick (c : Convo)
  | refreshIssue
  | refreshArrive (reqId : Nat) (fetched : List Convo)
deriving DecidableEq, Repr

def step (s : HookState) : Event → HookState
  | .chunk text => handleSummarizeIdeaStart s text
  | .sumArrive reqId resp saveResult fetched =>
      handleSummarizeIdeaComplete s reqId resp saveResult fetched
  | .genStart i => handleGenerateScriptStart s i
  | .genInline i resp => handleGenerateScriptInline s i resp
  | .genRespond i ok => handleGenerateScriptRespond s i ok
  | .genFrag i fragment => handleGenerateScriptFrag s i fragment
  | .genDone i saveResult fetched => handleGenerateScriptDone s i saveResult fetched
  | .newIdea => handleNewIdea s
  | .historyClick c => handleHistoryItemClick s c
  | .refreshIssue => fetchConversationsIssue s
  | .refreshArrive reqId fetched => fetchConversationsArrive s reqId fetched

def run (s : HookState) (evs : List Event) : HookState := evs.foldl step s

/-! ## The part_002 revision of `handleSummarizeIdea`
(src/unnamed/part_002 lines 164-196), which differs from part_000 in the
non-empty-chunk branch: it clears `activeConversationId` and always clears
`generatedScript`. -/

structure SessionV2 where
  fullConversationText : String
  currentSummary : String
  generatedScript : String
  activeConversationId : Option Nat
  hasExplicitlyReset : Bool
  isSummarizing : Bool
deriving DecidableEq, Repr

def initV2 : SessionV2 :=
  { fullConversationText := "", currentSummary := "", generatedScript := ""
  , activeConversationId := none, hasExplicitlyReset := false, isSummarizing := false }

/-- Synchronous part of part_002's `handleSummarizeIdea` (lines 164-186);
returns the updated session and the text submitted for summarization, if a
request was issued. -/
def acceptChunkV2 (s : SessionV2) (newIdeaChunk : String) : SessionV2 × Option String :=
  let cleared :=
    if jsTrim newIdeaChunk ≠ "" then
      { s with activeConversationId := none, generatedScript := ""
             , hasExplicitlyReset := false }
    else s
  let textThatWillBeSummarized :=
    if jsTrim newIdeaChunk ≠ "" then
      if s.fullConversationText ≠ "" then
        s.fullConversationText ++ "\n\n" ++ newIdeaChunk
      else newIdeaChunk
    else s.fullConversationText
  let s1 := { cleared with fullConversationText := textThatWillBeSummarized }
  if jsTrim textThatWillBeSummarized = "" then
    ({ s1 with currentSummary := "", isSummarizing := false }, none)
  else
    ({ s1 with isSummarizing := true }, some textThatWillBeSummarized)

/-- Completion of part_002's `handleSummarizeIdea` (lines 187-195): commit
the result (or a fallback) unconditionally — no staleness check. -/
def summarizeCompleteV2 (s : SessionV2) (resp : Option String) : SessionV2 :=
  match resp with
  | some t =>
      { s with currentSummary := if t ≠ "" then t else fallbackSummary
             , isSummarizing := false }
  | none =>
      { s with currentSummary := failedSummary, isSummarizing := false }

/-! ## The streaming generation endpoint (src/unnamed/part_003) -/

def streamErrorMarker : String := "\n\n[Error: Failed to generate script]"

/-- The `POST` handler of `/api/generate-script/stream`
(src/unnamed/part_003): a missing/empty `contextSummary` yields status 400;
otherwise the response headers (status 200) are sent immediately and the
generator's chunks are streamed.  When the generator throws mid-stream
(after `genChunks` were delivered, signalled by `genFails`), the handler
writes the in-band error marker and closes the stream NORMALLY — the
client sees a 200 response whose stream ends without error.
The result is (status, list of streamed fragments). -/
def streamPOST (contextSummary : Option String) (genChunks : List String)
    (genFails : Bool) : Nat × List String :=
  if contextSummary.getD "" = "" then (400, [])
  else (200, if genFails then genChunks ++ [streamErrorMarker] else genChunks)

/-- Events of the client's consumption of a successfully-opened stream
`body` for invocation `i` (fetch resolves ok, each fragment is read, the
stream ends and the script is persisted). -/
def clientStreamEvents (i : Nat) (body : List String) (saveResult : Option Nat)
    (fetched : List Convo) : List Event :=
  Event.genStart i :: Event.genRespond i true ::
    (body.map (Event.genFrag i) ++ [Event.genDone i saveResult fetched])

/-! ## The capture session (push-to-talk state machine) -/

/-- State of the part_000 capture session: the three visible flags, the
`isRecognitionActiveRef` guard, the number of registered release listeners
(`mouseup`/`touchend` on window and document), and a counter of
`recognition.start()` invocations. -/
structure Cap0 where
  recognitionAvailable : Bool
  sheetExpanded : Bool
  isRecognitionActive : Bool
  isAttemptingToListen : Bool
  isActivelyListening : Bool
  isMicButtonPressed : Bool
  releaseListeners : Nat
  startCalls : Nat
deriving DecidableEq, Repr

/-- `handleUserForceStop` / the registered `handleStop`
(src/unnamed/part_000 lines 246-273 and 446-474): remove the release
listeners, reset all flags, stop recognition defensively. -/
def handleUserForceStop0 (s : Cap0) : Cap0 :=
  { s with releaseListeners := 0
         , isRecognitionActive := false
         , isMicButtonPressed := false
         , isActivelyListening := false
         , isAttemptingToListen := false }

/-- `handleMicButtonInteractionStart` (src/unnamed/part_000 lines 395-499).
`permissionGranted` is the outcome of the `getUserMedia` permission probe
(the probe stream is closed immediately); `startThrows` whether
`recognition.start()` throws.  On a throw the catch block resets the flags
but — exactly as in the source — does not remove the just-added release
listeners. -/
def handleMicButtonInteractionStart0 (s : Cap0) (permissionGranted startThrows : Bool) : Cap0 :=
  if !s.recognitionAvailable then s
  else if s.isRecognitionActive then s
  else if s.sheetExpanded then s
  else if !permissionGranted then s
  else
    let s1 := { s with isRecognitionActive := true
                     , isAttemptingToListen := true
                     , isMicButtonPressed := true
                     , releaseListeners := s.releaseListeners + 4
                     , startCalls := s.startCalls + 1 }
    if startThrows then
      { s1 with isRecognitionActive := false, isMicButtonPressed := false
              , isActivelyListening := false, isAttemptingToListen := false }
    else s1

/-- Capture-session events: a mic press (with the environment's permission
and start outcomes), the four recognition callbacks, the user release, and
sheet expansion changes. -/
inductive CapEvent where
  | press (permissionGranted startThrows : Bool)
  | onstart
  | onresult (hasTranscript : Bool)
  | onerror (code : String)
  | onend
  | release
  | setSheet (expanded : Bool)
deriving DecidableEq, Repr

/-- One capture-session transition of the part_000 revision:
`onstart` (lines 292-297) raises the listening flags; `onresult`,
`onerror` and `onend` (lines 299-364) all funnel through the force-stop
path; a release triggers the registered `handleStop`. -/
def capStep0 (s : Cap0) : CapEvent → Cap0
  | .press p t => handleMicButtonInteractionStart0 s p t
  | .onstart => { s with isActivelyListening := true, isAttemptingToListen := false
                       , isRecognitionActive := true }
  | .onresult _ => handleUserForceStop0 s
  | .onerror _ => handleUserForceStop0 s
  | .onend => handleUserForceStop0 s
  | .release => handleUserForceStop0 s
  | .setSheet b => { s with sheetExpanded := b }

def initCap0 (avail : Bool) : Cap0 :=
  { recognitionAvailable := avail, sheetExpanded := false
  , isRecognitionActive := false, isAttemptingToListen := false
  , isActivelyListening := false, isMicButtonPressed := false
  , releaseListeners := 0, startCalls := 0 }

def runCap0 (s : Cap0) (evs : List CapEvent) : Cap0 := evs.foldl capStep0 s

/-- State of the part_001 capture session (same fields plus the
`isSummarizing` flag its guard also consults). -/
structure Cap1 where
  recognitionAvailable : Bool
  sheetExpanded : Bool
  isSummarizing : Bool
  isRecognitionActive : Bool
  isAttemptingToListen : Bool
  isActivelyListening : Bool
  isMicButtonPressed : Bool
  releaseListeners : Nat
  startCalls : Nat
deriving DecidableEq, Repr

/-- `handleMicButtonInteractionStart` of the part_001 revision (lines
293-347): a single guard rejects the call unless the session is fully
idle; on a `start()` throw the (freshly updated) force-stop handler runs,
removing the four listeners and resetting the flags. -/
def handleMicButtonInteractionStart1 (s : Cap1) (startThrows : Bool) : Cap1 :=
  if !s.recognitionAvailable then s
  else if s.isRecognitionActive || s.isAttemptingToListen || s.isActivelyListening
       || s.isSummarizing || s.sheetExpanded then s
  else
    let s1 := { s with isAttemptingToListen := true
                     , isMicButtonPressed := true
                     , releaseListeners := s.releaseListeners + 4
                     , startCalls := s.startCalls + 1 }
    if startThrows then
      { s1 with releaseListeners := 0, isMicButtonPressed := false
              , isActivelyListening := false, isAttemptingToListen := false
              , isRecognitionActive := false }
    else s1

/-! ## Specification-side notions used to state the claims -/

/-- The claim-side join: the chunks in order, separated by a blank line. -/
def blankLineJoin : List String → String
  | [] => ""
  | [c] => c
  | c :: c2 :: rest => c ++ "\n\n" ++ blankLineJoin (c2 :: rest)

/-- The buffer transition `acceptChunk` performs, as a pure function. -/
def acceptAppend (buf c : String) : String :=
  if jsTrim c ≠ "" then
    (if buf ≠ "" then buf ++ "\n\n" ++ c else c)
  else buf

/-- The chunk payloads of a trace, in order. -/
def chunksOf (evs : List Event) : List String :=
  evs.filterMap (fun e => match e with | .chunk t => some t | _ => none)

/-- Events touching only the Accumulator/Summarizer pipeline. -/
def onlyAccum : Event → Bool
  | .chunk _ => true
  | .sumArrive _ _ _ _ => true
  | _ => false

/-- Events that can still be delivered to a superseded `handleGenerateScript`
invocation 1: its stream-read resolutions. -/
def isTail1 : Event → Bool
  | .genFrag i _ => i == 1
  | .genDone i _ _ => i == 1
  | _ => false

/-- An interleaving of two event sequences, preserving the order within
each. -/
inductive Interleave : List Event → List Event → List Event → Prop where
  | nil : Interleave [] [] []
  | left {x : Event} {xs ys zs : List Event} :
      Interleave xs ys zs → Interleave (x :: xs) ys (x :: zs)
  | right {y : Event} {xs ys zs : List Event} :
      Interleave xs ys zs → Interleave xs (y :: ys) (y :: zs)

/-- Joining further chunks onto an existing non-empty buffer. -/
def joinOnto (buf : String) : List String → String
  | [] => buf
  | c :: rest => buf ++ "\n\n" ++ blankLineJoin (c :: rest)

/-! ## Basic string facts -/

theorem string_eq_empty_of_data (s : String) (h : s.data = []) : s = "" :=
  String.ext h

theorem string_append_ne_empty_right (a b : String) (hb : b ≠ "") : a ++ b ≠ "" := by
  intro hab
  apply hb
  apply string_eq_empty_of_data
  have hdata : (a ++ b).data = [] := by rw [hab]
  rw [String.data_append] at hdata
  exact (List.append_eq_nil.mp hdata).2

theorem jsTrim_empty : jsTrim "" = "" := rfl

theorem ne_empty_of_jsTrim_ne_empty (c : String) (h : jsTrim c ≠ "") : c ≠ "" := by
  intro hc
  exact h (by rw [hc, jsTrim_empty])

theorem acceptAppend_ne_empty (buf c : String) (h : jsTrim c ≠ "") :
    acceptAppend buf c ≠ "" := by
  unfold acceptAppend
  rw [if_pos h]
  by_cases hb : buf = ""
  · rw [if_neg (fun hne => hne hb)]
    exact ne_empty_of_jsTrim_ne_empty c h
  · rw [if_pos hb]
    exact string_append_ne_empty_right _ _ (ne_empty_of_jsTrim_ne_empty c h)

theorem acceptAppend_blank (buf c : String) (h : jsTrim c = "") :
    acceptAppend buf c = buf := by
  unfold acceptAppend
  rw [if_neg (fun hne => hne h)]

/-! ## Store lemmas -/

theorem map_update_id_createdAt (l : List ConversationRecord) (q : ConversationRecord → Bool)
    (userId summary script ftext : String) (now : Nat) :
    (l.map (fun x =>
      if q x then
        { x with userId := userId, summary := summary, script := script,
                 fullConversation := ftext, lastOpenedAt := now }
      else x)).map (fun x => (x.id, x.createdAt))
      = l.map (fun x => (x.id, x.createdAt)) := by
  induction l with
  | nil => rfl
  | cons a t ih =>
      simp only [List.map_cons, ih]
      cases hqa : q a <;> simp [hqa]

/-- Claim C9: `saveOrUpdateConversation` with an empty `userId` or empty
`summary` throws ("User ID and summary are required ...") before touching
the store, so no record is created or updated on this path. -/
theorem C9_saveOrUpdate_requires_user_and_summary (store : Store) (now : Nat)
    (userId summary script ftext : String) (existingId : Option Nat)
    (h : userId = "" ∨ summary = "") :
    saveOrUpdateConversation store now userId summary script ftext existingId
      = .error requiredErr := by
  unfold saveOrUpdateConversation
  rw [if_pos h]

theorem C9_witness :
    ((("" : String) = "" ∨ ("hello" : String) = "") ∧
      saveOrUpdateConversation ⟨[], 0⟩ 5 "" "hello" "s" "f" none = .error requiredErr) :=
  ⟨Or.inl rfl,
    C9_saveOrUpdate_requires_user_and_summary ⟨[], 0⟩ 5 "" "hello" "s" "f" none (Or.inl rfl)⟩

/-- Claim C5: with no existing id, when some record of the same user has
exactly the given summary (the dedup query finds `r`), that record is
updated in place and its id returned: no record is created (the (id,
createdAt) pairs and the list length are unchanged, `nextId` does not
advance), and the record with id `r.id` now carries the given fields with
`lastOpenedAt = now`, its `createdAt` untouched. -/
theorem C5_dedup_updates_existing (store : Store) (now : Nat)
    (userId summary script ftext : String) (r : ConversationRecord)
    (hu : userId ≠ "") (hs : summary ≠ "")
    (hfind : store.records.find? (fun x => x.userId == userId && x.summary == summary)
      = some r) :
    ∃ store',
      saveOrUpdateConversation store now userId summary script ftext none
        = .ok (r.id, store') ∧
      store'.nextId = store.nextId ∧
      store'.records.length = store.records.length ∧
      store'.records.map (fun x => (x.id, x.createdAt))
        = store.records.map (fun x => (x.id, x.createdAt)) ∧
      ∃ x ∈ store'.records, x.id = r.id ∧ x.summary = summary ∧ x.script = script ∧
        x.fullConversation = ftext ∧ x.lastOpenedAt = now ∧ x.createdAt = r.createdAt := by
  have hcond : ¬(userId = "" ∨ summary = "") := fun h => h.elim hu hs
  refine ⟨{ store with records := store.records.map (fun x =>
      if x.id == r.id then
        { x with userId := userId, summary := summary, script := script,
                 fullConversation := ftext, lastOpenedAt := now }
      else x) }, ?_, rfl, by simp, ?_, ?_⟩
  · simp only [saveOrUpdateConversation, if_neg hcond, hfind]
  · exact map_update_id_createdAt store.records _ userId summary script ftext now
  · have hmem := List.mem_of_find?_eq_some hfind
    have h2 := List.mem_map_of_mem (fun x =>
      if x.id == r.id then
        { x with userId := userId, summary := summary, script := script,
                 fullConversation := ftext, lastOpenedAt := now }
      else x) hmem
    simp only [beq_self_eq_true, if_true] at h2
    exact ⟨_, h2, rfl, rfl, rfl, rfl, rfl, rfl⟩

theorem C5_witness :
    (("u" : String) ≠ "" ∧ ("s" : String) ≠ "") ∧
    (∃ store',
      saveOrUpdateConversation ⟨[⟨0, "u", "s", "old", "f", 10, 11⟩], 1⟩ 99 "u" "s" "new" "ft" none
        = .ok (0, store') ∧
      store'.nextId = 1 ∧
      store'.records.length = 1 ∧
      store'.records.map (fun x => (x.id, x.createdAt)) = [(0, 10)] ∧
      ∃ x ∈ store'.records, x.id = 0 ∧ x.summary = "s" ∧ x.script = "new" ∧
        x.fullConversation = "ft" ∧ x.lastOpenedAt = 99 ∧ x.createdAt = 10) :=
  ⟨⟨by decide, by decide⟩,
    C5_dedup_updates_existing ⟨[⟨0, "u", "s", "old", "f", 10, 11⟩], 1⟩ 99 "u" "s" "new" "ft"
      ⟨0, "u", "s", "old", "f", 10, 11⟩ (by decide) (by decide) (by decide)⟩

/-- Claim C10: both update paths (explicit existing id, or the
summary-dedup match) leave every record's `createdAt` unchanged;
`createdAt` is only written on the create path. -/
theorem C10_update_paths_preserve_createdAt (store store' : Store) (now : Nat)
    (userId summary script ftext : String) (existingId : Option Nat) (rid : Nat)
    (hok : saveOrUpdateConversation store now userId summary script ftext existingId
      = .ok (rid, store'))
    (hpath : existingId.isSome ∨
      (store.records.find? (fun x => x.userId == userId && x.summary == summary)).isSome) :
    store'.records.map (fun x => (x.id, x.createdAt))
      = store.records.map (fun x => (x.id, x.createdAt)) := by
  unfold saveOrUpdateConversation at hok
  by_cases hcond : userId = "" ∨ summary = ""
  · rw [if_pos hcond] at hok
    exact absurd hok (by simp)
  rw [if_neg hcond] at hok
  cases existingId with
  | some cid =>
      dsimp only at hok
      by_cases hany : store.records.any (fun r => r.id == cid && r.userId == userId) = true
      · rw [if_pos hany] at hok
        simp only [Except.ok.injEq, Prod.mk.injEq] at hok
        obtain ⟨-, h2⟩ := hok
        rw [← h2]
        exact map_update_id_createdAt store.records _ userId summary script ftext now
      · rw [if_neg hany] at hok
        exact absurd hok (by simp)
  | none =>
      rcases hpath with hp | hp
      · exact absurd hp (by simp)
      · obtain ⟨r, hr⟩ := Option.isSome_iff_exists.mp hp
        rw [hr] at hok
        dsimp only at hok
        simp only [Except.ok.injEq, Prod.mk.injEq] at hok
        obtain ⟨-, h2⟩ := hok
        rw [← h2]
        exact map_update_id_createdAt store.records _ userId summary script ftext now

theorem C10_witness :
    (saveOrUpdateConversation ⟨[⟨0, "u", "s", "old", "f", 10, 11⟩], 1⟩ 99 "u" "s2" "n" "ft" (some 0)
        = .ok (0, ⟨[⟨0, "u", "s2", "n", "ft", 10, 99⟩], 1⟩) ∧
      ((some 0 : Option Nat).isSome ∨
        (Store.records ⟨[⟨0, "u", "s", "old", "f", 10, 11⟩], 1⟩ |>.find?
          (fun x => x.userId == "u" && x.summary == "s2")).isSome)) ∧
    (Store.records ⟨[⟨0, "u", "s2", "n", "ft", 10, 99⟩], 1⟩ |>.map (fun x => (x.id, x.createdAt)))
      = (Store.records ⟨[⟨0, "u", "s", "old", "f", 10, 11⟩], 1⟩ |>.map (fun x => (x.id, x.createdAt))) :=
  ⟨⟨rfl, Or.inl rfl⟩,
    C10_update_paths_preserve_createdAt ⟨[⟨0, "u", "s", "old", "f", 10, 11⟩], 1⟩
      ⟨[⟨0, "u", "s2", "n", "ft", 10, 99⟩], 1⟩ 99 "u" "s2" "n" "ft" (some 0) 0
      rfl (Or.inl rfl)⟩

/-! ## Capture-session lemmas (claim C7) -/

theorem capStep0_inv (s : Cap0) (e : CapEvent)
    (h : (s.isAttemptingToListen = true ∨ s.isActivelyListening = true) →
      s.isRecognitionActive = true) :
    ((capStep0 s e).isAttemptingToListen = true ∨ (capStep0 s e).isActivelyListening = true) →
      (capStep0 s e).isRecognitionActive = true := by
  cases e with
  | press p t =>
      unfold capStep0 handleMicButtonInteractionStart0
      dsimp only
      by_cases h1 : (!s.recognitionAvailable) = true
      · rw [if_pos h1]; exact h
      rw [if_neg h1]
      by_cases h2 : s.isRecognitionActive = true
      · rw [if_pos h2]; exact h
      rw [if_neg h2]
      by_cases h3 : s.sheetExpanded = true
      · rw [if_pos h3]; exact h
      rw [if_neg h3]
      by_cases h4 : (!p) = true
      · rw [if_pos h4]; exact h
      rw [if_neg h4]
      cases h5 : t
      · intro _; simp
      · intro hh; simp at hh
  | onstart => intro _; rfl
  | onresult b => intro hh; simp [capStep0, handleUserForceStop0] at hh
  | onerror c => intro hh; simp [capStep0, handleUserForceStop0] at hh
  | onend => intro hh; simp [capStep0, handleUserForceStop0] at hh
  | release => intro hh; simp [capStep0, handleUserForceStop0] at hh
  | setSheet b => exact h

theorem runCap0_inv (evs : List CapEvent) : ∀ s : Cap0,
    ((s.isAttemptingToListen = true ∨ s.isActivelyListening = true) →
      s.isRecognitionActive = true) →
    ((runCap0 s evs).isAttemptingToListen = true ∨
      (runCap0 s evs).isActivelyListening = true) →
      (runCap0 s evs).isRecognitionActive = true := by
  induction evs with
  | nil => intro s h; exact h
  | cons e t ih => intro s h; exact ih (capStep0 s e) (capStep0_inv s e h)

theorem begin0_noop_of_active (s : Cap0) (p t : Bool) (h : s.isRecognitionActive = true) :
    handleMicButtonInteractionStart0 s p t = s := by
  unfold handleMicButtonInteractionStart0
  cases hav : s.recognitionAvailable <;> simp [hav, h]

theorem begin1_noop_of_busy (s : Cap1) (t : Bool)
    (h : s.isAttemptingToListen = true ∨ s.isActivelyListening = true) :
    handleMicButtonInteractionStart1 s t = s := by
  unfold handleMicButtonInteractionStart1
  rcases h with h | h <;> cases hav : s.recognitionAvailable <;> simp [hav, h]

/-- Claim C7: when the capture session is Attempting or Listening,
`handleMicButtonInteractionStart` is a no-op — the state (hence also the
release-listener count and the number of `recognition.start()` calls) is
unchanged — in both the part_001 revision (whose guard checks the flags
directly, for every state) and the part_000 revision (whose guard checks
`isRecognitionActiveRef`, which in every reachable state is set whenever
the session is Attempting or Listening). -/
theorem C7_begin_noop_when_not_idle (s1 : Cap1) (t1 avail p t : Bool) (evs : List CapEvent)
    (h1 : s1.isAttemptingToListen = true ∨ s1.isActivelyListening = true)
    (h0 : (runCap0 (initCap0 avail) evs).isAttemptingToListen = true ∨
          (runCap0 (initCap0 avail) evs).isActivelyListening = true) :
    handleMicButtonInteractionStart1 s1 t1 = s1 ∧
    handleMicButtonInteractionStart0 (runCap0 (initCap0 avail) evs) p t
      = runCap0 (initCap0 avail) evs :=
  ⟨begin1_noop_of_busy s1 t1 h1,
   begin0_noop_of_active _ p t (runCap0_inv evs (initCap0 avail)
     (fun hh => by simp [initCap0] at hh) h0)⟩

theorem C7_witness :
    ((⟨true, false, false, false, true, false, true, 4, 1⟩ : Cap1).isAttemptingToListen = true ∨
      (⟨true, false, false, false, true, false, true, 4, 1⟩ : Cap1).isActivelyListening = true) ∧
    ((runCap0 (initCap0 true) [CapEvent.press true false]).isAttemptingToListen = true ∨
      (runCap0 (initCap0 true) [CapEvent.press true false]).isActivelyListening = true) ∧
    (handleMicButtonInteractionStart1 ⟨true, false, false, false, true, false, true, 4, 1⟩ false
        = ⟨true, false, false, false, true, false, true, 4, 1⟩ ∧
      handleMicButtonInteractionStart0 (runCap0 (initCap0 true) [CapEvent.press true false]) true false
        = runCap0 (initCap0 true) [CapEvent.press true false]) :=
  ⟨Or.inl rfl, Or.inl (by decide),
    C7_begin_noop_when_not_idle ⟨true, false, false, false, true, false, true, 4, 1⟩
      false true true false [CapEvent.press true false] (Or.inl rfl) (Or.inl (by decide))⟩

/-! ## Hook-state projection lemmas -/

theorem autoLoadCond_false_of_summary (snap : FetchSnap) (buf : String) (f : List Convo)
    (h : snap.currentSummary ≠ "") : autoLoadCond snap buf f = false := by
  unfold autoLoadCond
  have hb : (snap.currentSummary == "") = false := beq_eq_false_iff_ne.mpr h
  simp [hb]

theorem autoLoadCond_false_of_id (snap : FetchSnap) (buf : String) (f : List Convo) (k : Nat)
    (h : snap.activeConversationId = some k) : autoLoadCond snap buf f = false := by
  unfold autoLoadCond
  have hb : (snap.activeConversationId == none) = false := by rw [h]; rfl
  simp [hb]

theorem fetchRun_frame_of_cond_false (snap : FetchSnap) (s : HookState) (f : List Convo)
    (h : autoLoadCond snap s.fullConversationText f = false) :
    fetchConversationsRun snap s f = { s with conversations := f } := by
  unfold fetchConversationsRun
  rw [h]
  simp

theorem chunkStep_buffer (s : HookState) (t : String) :
    (handleSummarizeIdeaStart s t).fullConversationText
      = acceptAppend s.fullConversationText t := by
  unfold handleSummarizeIdeaStart acceptAppend
  by_cases h : jsTrim t ≠ "" <;>
    by_cases hb : s.fullConversationText ≠ "" <;>
      simp only [h, hb, ne_eq, not_false_eq_true, not_true_eq_false, ite_true, ite_false,
        if_true, if_false] <;>
      split <;> rfl

theorem chunkStep_id (s : HookState) (t : String) :
    (handleSummarizeIdeaStart s t).activeConversationId = s.activeConversationId := by
  unfold handleSummarizeIdeaStart
  by_cases h : jsTrim t ≠ "" <;>
    simp [h, apply_ite HookState.activeConversationId, ite_self]

theorem chunkStep_flag (s : HookState) (t : String) :
    (handleSummarizeIdeaStart s t).hasExplicitlyReset
      = if jsTrim t ≠ "" then false else s.hasExplicitlyReset := by
  unfold handleSummarizeIdeaStart
  by_cases h : jsTrim t ≠ "" <;>
    simp [h, apply_ite HookState.hasExplicitlyReset, ite_self]

theorem sumComplete_frame (s : HookState) (r : Nat) (resp : Option String)
    (sv : Option Nat) (f : List Convo) :
    (handleSummarizeIdeaComplete s r resp sv f).fullConversationText
      = s.fullConversationText ∧
    (handleSummarizeIdeaComplete s r resp sv f).hasExplicitlyReset
      = s.hasExplicitlyReset ∧
    ((handleSummarizeIdeaComplete s r resp sv f).activeConversationId
        = s.activeConversationId ∨
      ∃ k, (handleSummarizeIdeaComplete s r resp sv f).activeConversationId = some k) := by
  unfold handleSummarizeIdeaComplete
  by_cases hp : (s.pendingSum.find? (fun p => p.1 == r)).isSome
  case neg => rw [if_neg hp]; exact ⟨rfl, rfl, Or.inl rfl⟩
  rw [if_pos hp]
  cases resp with
  | none => exact ⟨rfl, rfl, Or.inl rfl⟩
  | some t =>
      cases sv with
      | none => exact ⟨rfl, rfl, Or.inl rfl⟩
      | some savedId =>
          have hfbb : (fallbackSummary == "") = false := by decide
          by_cases ht : t = ""
          · by_cases hid : s.activeConversationId = none
            · refine ⟨?_, ?_, Or.inr ⟨savedId, ?_⟩⟩ <;>
                simp [ht, hid, fetchConversationsRun, fetchSnapOf, autoLoadCond, hfbb]
            · refine ⟨?_, ?_, Or.inl ?_⟩ <;>
                simp [ht, hid, fetchConversationsRun, fetchSnapOf, autoLoadCond, hfbb]
          · have htb : (t == "") = false := beq_eq_false_iff_ne.mpr ht
            by_cases hid : s.activeConversationId = none
            · refine ⟨?_, ?_, Or.inr ⟨savedId, ?_⟩⟩ <;>
                simp [ht, hid, fetchConversationsRun, fetchSnapOf, autoLoadCond, htb]
            · refine ⟨?_, ?_, Or.inl ?_⟩ <;>
                simp [ht, hid, fetchConversationsRun, fetchSnapOf, autoLoadCond, htb]

/-- Claim C8: REFUTED — the code contradicts the claimed (and commented,
src/unnamed/part_000 line 132) suppression.  `fetchConversationsCallback`
reads `hasExplicitlyReset`, `activeConversationId`, `currentSummary` and
`generatedScript` from its `useCallback` closure, so a fetch already in
flight when the user presses "New Idea" still evaluates the pre-reset
snapshot when it resolves: here the fetch is issued in the initial state,
`handleNewIdea` records the explicit reset, and the fetch then resolves
with a non-empty conversation list; the stale snapshot passes the guard
(only the buffer ref is read fresh, and the reset just cleared it) and the
most recent conversation is auto-loaded into the freshly reset session —
`activeConversationId`, `currentSummary` and `generatedScript` are
repopulated while `hasExplicitlyReset` is still `true` and no history item
was ever clicked. -/
theorem C8_stale_closure_autoload :
    (run initHook [Event.refreshIssue, Event.newIdea,
        Event.refreshArrive 0 [⟨3, "s", "sc", "f", 5⟩]]).hasExplicitlyReset = true ∧
    (run initHook [Event.refreshIssue, Event.newIdea,
        Event.refreshArrive 0 [⟨3, "s", "sc", "f", 5⟩]]).activeConversationId = some 3 ∧
    (run initHook [Event.refreshIssue, Event.newIdea,
        Event.refreshArrive 0 [⟨3, "s", "sc", "f", 5⟩]]).currentSummary = "s" ∧
    (run initHook [Event.refreshIssue, Event.newIdea,
        Event.refreshArrive 0 [⟨3, "s", "sc", "f", 5⟩]]).generatedScript = "sc" := by
  refine ⟨?_, ?_, ?_, ?_⟩ <;> decide

/-! ## The accumulator join property (claim C4) -/

theorem foldl_acceptAppend_joinOnto (l : List String) : ∀ (buf : String), buf ≠ "" →
    l.foldl acceptAppend buf = joinOnto buf (l.filter (fun c => !(jsTrim c == ""))) := by
  induction l with
  | nil => intro buf _; rfl
  | cons c t ih =>
      intro buf hbuf
      cases hc : (jsTrim c == "") with
      | true =>
          have hce : jsTrim c = "" := eq_of_beq hc
          simp only [List.foldl_cons, List.filter_cons, hc, Bool.not_true,
            acceptAppend_blank _ _ hce]
          exact ih buf hbuf
      | false =>
          have hne : jsTrim c ≠ "" := beq_eq_false_iff_ne.mp hc
          have hstep : acceptAppend buf c = buf ++ "\n\n" ++ c := by
            unfold acceptAppend
            rw [if_pos hne, if_pos hbuf]
          have hbuf2 : buf ++ "\n\n" ++ c ≠ "" :=
            string_append_ne_empty_right _ _ (ne_empty_of_jsTrim_ne_empty c hne)
          simp only [List.foldl_cons, List.filter_cons, hc, Bool.not_false, hstep,
            eq_self_iff_true, if_true]
          rw [ih _ hbuf2]
          cases hft : t.filter (fun c => !(jsTrim c == "")) with
          | nil => rfl
          | cons c2 r =>
              show (buf ++ "\n\n" ++ c) ++ "\n\n" ++ blankLineJoin (c2 :: r)
                  = buf ++ "\n\n" ++ (c ++ "\n\n" ++ blankLineJoin (c2 :: r))
              simp [String.append_assoc]

theorem foldl_acceptAppend_join (l : List String) :
    l.foldl acceptAppend "" = blankLineJoin (l.filter (fun c => !(jsTrim c == ""))) := by
  induction l with
  | nil => rfl
  | cons c t ih =>
      cases hc : (jsTrim c == "") with
      | true =>
          have hce : jsTrim c = "" := eq_of_beq hc
          simp only [List.foldl_cons, List.filter_cons, hc, Bool.not_true,
            acceptAppend_blank _ _ hce]
          exact ih
      | false =>
          have hne : jsTrim c ≠ "" := beq_eq_false_iff_ne.mp hc
          have hcne : c ≠ "" := ne_empty_of_jsTrim_ne_empty c hne
          have hstep : acceptAppend "" c = c := by
            unfold acceptAppend
            rw [if_pos hne, if_neg (fun hb => hb rfl)]
          simp only [List.foldl_cons, List.filter_cons, hc, Bool.not_false, hstep, if_true]
          rw [foldl_acceptAppend_joinOnto t c hcne]
          cases hft : t.filter (fun c => !(jsTrim c == "")) with
          | nil => rfl
          | cons c2 r => rfl

theorem run_buffer_accum (evs : List Event) : ∀ s : HookState,
    (∀ e ∈ evs, onlyAccum e = true) →
    (run s evs).fullConversationText
      = (chunksOf evs).foldl acceptAppend s.fullConversationText := by
  induction evs with
  | nil => intro s _; rfl
  | cons e t ih =>
      intro s h
      have he := h e (List.mem_cons_self _ _)
      have ht := fun x hx => h x (List.mem_cons_of_mem _ hx)
      cases e with
      | chunk c =>
          have : (run s (Event.chunk c :: t)).fullConversationText
              = (chunksOf t).foldl acceptAppend
                  (handleSummarizeIdeaStart s c).fullConversationText := ih _ ht
          rw [this, chunkStep_buffer]
          rfl
      | sumArrive r resp sv f =>
          have : (run s (Event.sumArrive r resp sv f :: t)).fullConversationText
              = (chunksOf t).foldl acceptAppend
                  (handleSummarizeIdeaComplete s r resp sv f).fullConversationText := ih _ ht
          rw [this, (sumComplete_frame s r resp sv f).1]
          rfl
      | genStart i => simp [onlyAccum] at he
      | genInline i resp => simp [onlyAccum] at he
      | genRespond i ok => simp [onlyAccum] at he
      | genFrag i fr => simp [onlyAccum] at he
      | genDone i sv f => simp [onlyAccum] at he
      | newIdea => simp [onlyAccum] at he
      | historyClick c => simp [onlyAccum] at he
      | refreshIssue => simp [onlyAccum] at he
      | refreshArrive r f => simp [onlyAccum] at he

/-- Claim C4: over any trace of `acceptChunk` calls with arbitrarily
interleaved summarization completions (successful or failed), the buffer
equals the ordered blank-line join of exactly the non-whitespace chunks;
and a whitespace-only chunk leaves the buffer unchanged, merely
re-submitting the existing (non-blank) buffer for summarization. -/
theorem C4_buffer_is_blankLineJoin (evs : List Event)
    (h : ∀ e ∈ evs, onlyAccum e = true) :
    (run initHook evs).fullConversationText
      = blankLineJoin ((chunksOf evs).filter (fun c => !(jsTrim c == ""))) ∧
    (∀ (s : HookState) (t : String), jsTrim t = "" →
      (handleSummarizeIdeaStart s t).fullConversationText = s.fullConversationText ∧
      (jsTrim s.fullConversationText ≠ "" →
        (handleSummarizeIdeaStart s t).pendingSum
          = s.pendingSum ++ [(s.nextReq, s.fullConversationText)])) := by
  constructor
  · rw [run_buffer_accum evs initHook h]
    exact foldl_acceptAppend_join (chunksOf evs)
  · intro s t htr
    constructor
    · rw [chunkStep_buffer, acceptAppend_blank _ _ htr]
    · intro hbuf
      unfold handleSummarizeIdeaStart
      simp only [htr, ne_eq, eq_self_iff_true, not_true, if_false]
      rw [if_neg hbuf]

theorem C4_witness :
    (∀ e ∈ [Event.chunk "a vlog about coffee",
        Event.sumArrive 0 (some "Coffee vlog") (some 7) [],
        Event.chunk "", Event.chunk " "], onlyAccum e = true) ∧
    (run initHook [Event.chunk "a vlog about coffee",
        Event.sumArrive 0 (some "Coffee vlog") (some 7) [],
        Event.chunk "", Event.chunk " "]).fullConversationText
      = blankLineJoin ((chunksOf [Event.chunk "a vlog about coffee",
          Event.sumArrive 0 (some "Coffee vlog") (some 7) [],
          Event.chunk "", Event.chunk " "]).filter (fun c => !(jsTrim c == ""))) :=
  ⟨by decide,
    (C4_buffer_is_blankLineJoin [Event.chunk "a vlog about coffee",
        Event.sumArrive 0 (some "Coffee vlog") (some 7) [],
        Event.chunk "", Event.chunk " "] (by decide)).1⟩

/-! ## Accepting a chunk: what gets cleared (claim C3) -/

theorem chunkStep_script (s : HookState) (t : String) :
    (handleSummarizeIdeaStart s t).generatedScript
      = if jsTrim t ≠ "" then
          (if s.activeConversationId = none then "" else s.generatedScript)
        else s.generatedScript := by
  unfold handleSummarizeIdeaStart
  by_cases h : jsTrim t ≠ "" <;>
    by_cases hid : s.activeConversationId = none <;>
      simp [h, hid, apply_ite HookState.generatedScript, ite_self]

theorem acceptChunkV2_proj (v : SessionV2) (c : String) (h : jsTrim c ≠ "") :
    (acceptChunkV2 v c).1.hasExplicitlyReset = false ∧
    (acceptChunkV2 v c).1.activeConversationId = none ∧
    (acceptChunkV2 v c).1.generatedScript = "" := by
  unfold acceptChunkV2
  refine ⟨?_, ?_, ?_⟩ <;>
    simp [h, apply_ite Prod.fst, apply_ite SessionV2.hasExplicitlyReset,
      apply_ite SessionV2.activeConversationId, apply_ite SessionV2.generatedScript,
      ite_self]

/-- Claim C3 counterexample: in the part_000 revision of
`handleSummarizeIdea`, accepting the non-empty chunk "hi" in a session
with an active conversation (id 5) and an existing script "old" leaves
`activeConversationId = some 5` and `generatedScript = "old"`: the claim
that every accepted non-empty chunk resets the id to `None` and clears
the script is false in this state. -/
theorem C3_counterexample :
    (handleSummarizeIdeaStart
        { initHook with activeConversationId := some 5, generatedScript := "old" }
        "hi").activeConversationId = some 5 ∧
    (handleSummarizeIdeaStart
        { initHook with activeConversationId := some 5, generatedScript := "old" }
        "hi").generatedScript = "old" ∧
    ¬((handleSummarizeIdeaStart
        { initHook with activeConversationId := some 5, generatedScript := "old" }
        "hi").activeConversationId = none) := by
  refine ⟨?_, ?_, ?_⟩ <;> decide

/-- Claim C3 amended: accepting a non-empty chunk always sets
`hasExplicitlyReset := false`; in the part_002 revision it also clears
`activeConversationId` and `generatedScript`, but in the part_000 revision
`activeConversationId` is left unchanged and `generatedScript` is cleared
only when no conversation is active. -/
theorem C3_accept_chunk_resets (s0 : HookState) (v : SessionV2) (c : String)
    (h : jsTrim c ≠ "") :
    (handleSummarizeIdeaStart s0 c).hasExplicitlyReset = false ∧
    (handleSummarizeIdeaStart s0 c).activeConversationId = s0.activeConversationId ∧
    (handleSummarizeIdeaStart s0 c).generatedScript
      = (if s0.activeConversationId = none then "" else s0.generatedScript) ∧
    (acceptChunkV2 v c).1.hasExplicitlyReset = false ∧
    (acceptChunkV2 v c).1.activeConversationId = none ∧
    (acceptChunkV2 v c).1.generatedScript = "" := by
  obtain ⟨h1, h2, h3⟩ := acceptChunkV2_proj v c h
  refine ⟨?_, chunkStep_id s0 c, ?_, h1, h2, h3⟩
  · rw [chunkStep_flag, if_pos h]
  · rw [chunkStep_script, if_pos h]

theorem C3_amended_witness :
    jsTrim "hi" ≠ "" ∧
    ((handleSummarizeIdeaStart
        { initHook with activeConversationId := some 5, generatedScript := "old" }
        "hi").hasExplicitlyReset = false ∧
      (handleSummarizeIdeaStart
        { initHook with activeConversationId := some 5, generatedScript := "old" }
        "hi").activeConversationId = some 5 ∧
      (handleSummarizeIdeaStart
        { initHook with activeConversationId := some 5, generatedScript := "old" }
        "hi").generatedScript = "old" ∧
      (acceptChunkV2 initV2 "hi").1.hasExplicitlyReset = false ∧
      (acceptChunkV2 initV2 "hi").1.activeConversationId = none ∧
      (acceptChunkV2 initV2 "hi").1.generatedScript = "") :=
  ⟨by decide,
    C3_accept_chunk_resets
      { initHook with activeConversationId := some 5, generatedScript := "old" }
      initV2 "hi" (by decide)⟩

/-! ## Summarization race: last arrival wins (claim C1) -/

/-- Any completing summarization call whose request was issued commits its
own response (or the fixed fallback) to `currentSummary`, regardless of
how many newer requests were issued meanwhile: the source has no
staleness check. -/
theorem sumComplete_commits (s : HookState) (r : Nat) (t : String) (sv : Option Nat)
    (f : List Convo)
    (hp : (s.pendingSum.find? (fun p => p.1 == r)).isSome) :
    (handleSummarizeIdeaComplete s r (some t) sv f).currentSummary
      = if t ≠ "" then t else fallbackSummary := by
  unfold handleSummarizeIdeaComplete
  rw [if_pos hp]
  cases sv with
  | none => rfl
  | some savedId =>
      have hfbb : (fallbackSummary == "") = false := by decide
      by_cases ht : t = ""
      · by_cases hid : s.activeConversationId = none <;>
          simp [ht, hid, fetchConversationsRun, fetchSnapOf, autoLoadCond, hfbb]
      · have htb : (t == "") = false := beq_eq_false_iff_ne.mpr ht
        by_cases hid : s.activeConversationId = none <;>
          simp [ht, hid, fetchConversationsRun, fetchSnapOf, autoLoadCond, htb]

theorem sumComplete_pendingSum (s : HookState) (r : Nat) (resp : Option String)
    (sv : Option Nat) (f : List Convo) :
    (handleSummarizeIdeaComplete s r resp sv f).pendingSum
      = if (s.pendingSum.find? (fun p => p.1 == r)).isSome
        then s.pendingSum.filter (fun p => p.1 != r) else s.pendingSum := by
  unfold handleSummarizeIdeaComplete
  by_cases hp : (s.pendingSum.find? (fun p => p.1 == r)).isSome
  case neg => rw [if_neg hp, if_neg hp]
  rw [if_pos hp, if_pos hp]
  cases resp with
  | none => rfl
  | some t =>
      cases sv with
      | none => rfl
      | some savedId =>
          have hfbb : (fallbackSummary == "") = false := by decide
          by_cases ht : t = ""
          · by_cases hid : s.activeConversationId = none <;>
              simp [ht, hid, fetchConversationsRun, fetchSnapOf, autoLoadCond, hfbb]
          · have htb : (t == "") = false := beq_eq_false_iff_ne.mpr ht
            by_cases hid : s.activeConversationId = none <;>
              simp [ht, hid, fetchConversationsRun, fetchSnapOf, autoLoadCond, htb]

/-- Claim C1 counterexample: chunk "a" issues summarization call 0 and
chunk "b" issues call 1; call 1's response "SB" arrives first and then
call 0's stale response "SA" arrives.  `currentSummary` ends as "SA" — the
earlier-issued call's late result is applied, so the claim that only the
most recently issued call's result may ever be committed is false. -/
theorem C1_counterexample :
    (run initHook [Event.chunk "a", Event.chunk "b",
        Event.sumArrive 1 (some "SB") (some 101) [],
        Event.sumArrive 0 (some "SA") (some 102) []]).currentSummary = "SA" ∧
    (run initHook [Event.chunk "a", Event.chunk "b",
        Event.sumArrive 1 (some "SB") (some 101) [],
        Event.sumArrive 0 (some "SA") (some 102) []]).currentSummary ≠ "SB" := by
  refine ⟨?_, ?_⟩ <;> decide

/-- Claim C1 amended: every completing summarization call commits its own
result, so `currentSummary` reflects the response that ARRIVES last
(completion-order last-write-wins), not the most recently issued call:
after B's response `currentSummary` is B's summary, and when A's stale
response then arrives it overwrites it.  The same holds in the part_002
revision (`summarizeCompleteV2` commits unconditionally). -/
theorem C1_last_arrival_wins (sA sB : String) (v : SessionV2)
    (hA : sA ≠ "") (hB : sB ≠ "") :
    (run initHook [Event.chunk "a", Event.chunk "b",
        Event.sumArrive 1 (some sB) (some 101) []]).currentSummary = sB ∧
    (run initHook [Event.chunk "a", Event.chunk "b",
        Event.sumArrive 1 (some sB) (some 101) [],
        Event.sumArrive 0 (some sA) (some 102) []]).currentSummary = sA ∧
    (summarizeCompleteV2 (summarizeCompleteV2 v (some sB)) (some sA)).currentSummary
      = sA := by
  refine ⟨?_, ?_, ?_⟩
  · show (handleSummarizeIdeaComplete (run initHook [Event.chunk "a", Event.chunk "b"])
        1 (some sB) (some 101) []).currentSummary = sB
    rw [sumComplete_commits _ _ _ _ _ (by decide), if_pos hB]
  · show (handleSummarizeIdeaComplete (run initHook [Event.chunk "a", Event.chunk "b",
        Event.sumArrive 1 (some sB) (some 101) []]) 0 (some sA) (some 102) []).currentSummary
      = sA
    have hpend : (run initHook [Event.chunk "a", Event.chunk "b",
        Event.sumArrive 1 (some sB) (some 101) []]).pendingSum = [(0, "a")] := by
      show (handleSummarizeIdeaComplete (run initHook [Event.chunk "a", Event.chunk "b"])
          1 (some sB) (some 101) []).pendingSum = [(0, "a")]
      rw [sumComplete_pendingSum]
      decide
    rw [sumComplete_commits _ _ _ _ _ (by rw [hpend]; decide), if_pos hA]
  · simp [summarizeCompleteV2, hA]

theorem C1_witness :
    (("SA" : String) ≠ "" ∧ ("SB" : String) ≠ "") ∧
    ((run initHook [Event.chunk "a", Event.chunk "b",
        Event.sumArrive 1 (some "SB") (some 101) []]).currentSummary = "SB" ∧
      (run initHook [Event.chunk "a", Event.chunk "b",
        Event.sumArrive 1 (some "SB") (some 101) [],
        Event.sumArrive 0 (some "SA") (some 102) []]).currentSummary = "SA" ∧
      (summarizeCompleteV2 (summarizeCompleteV2 initV2 (some "SB")) (some "SA")).currentSummary
        = "SA") :=
  ⟨⟨by decide, by decide⟩,
    C1_last_arrival_wins "SA" "SB" initV2 (by decide) (by decide)⟩

/-! ## Cancellation of a superseded generation stream (claim C2) -/

theorem tail1_frame (s : HookState) (e : Event) (c : Nat)
    (he : isTail1 e = true)
    (hc : genCtrl (s.gens 1) = some c)
    (ha : c ∈ s.aborted) :
    (step s e).generatedScript = s.generatedScript ∧
    (step s e).saves = s.saves ∧
    (step s e).gens 2 = s.gens 2 ∧
    (step s e).aborted = s.aborted ∧
    genCtrl ((step s e).gens 1) = some c ∧
    (step s e).errorToasts = s.errorToasts := by
  cases e with
  | genFrag i fr =>
      have hi : i = 1 := Nat.eq_of_beq_eq_true (by simpa [isTail1] using he)
      subst hi
      simp only [step]
      unfold handleGenerateScriptFrag
      cases hg : s.gens 1 with
      | streaming c' sum acc =>
          have hcc : c' = c := by
            rw [hg] at hc
            simpa [genCtrl] using hc
          subst hcc
          dsimp only
          rw [if_pos ha]
          refine ⟨rfl, rfl, ?_, rfl, ?_, rfl⟩
          · dsimp only
            rw [Function.update_noteq (show (2 : Nat) ≠ 1 by decide) _ _]
          · dsimp only
            rw [Function.update_same]
            rfl
      | idle => rw [hg] at hc; simp [genCtrl] at hc
      | inlineSum idea => rw [hg] at hc; simp [genCtrl] at hc
      | returned => rw [hg] at hc; simp [genCtrl] at hc
      | fetching c' sum =>
          refine ⟨rfl, rfl, rfl, rfl, ?_, rfl⟩
          rw [hg] at hc ⊢; exact hc
      | finished c' =>
          refine ⟨rfl, rfl, rfl, rfl, ?_, rfl⟩
          rw [hg] at hc ⊢; exact hc
      | cancelled c' =>
          refine ⟨rfl, rfl, rfl, rfl, ?_, rfl⟩
          rw [hg] at hc ⊢; exact hc
      | errored c' =>
          refine ⟨rfl, rfl, rfl, rfl, ?_, rfl⟩
          rw [hg] at hc ⊢; exact hc
  | genDone i sv f =>
      have hi : i = 1 := Nat.eq_of_beq_eq_true (by simpa [isTail1] using he)
      subst hi
      simp only [step]
      unfold handleGenerateScriptDone
      cases hg : s.gens 1 with
      | streaming c' sum acc =>
          have hcc : c' = c := by
            rw [hg] at hc
            simpa [genCtrl] using hc
          subst hcc
          dsimp only
          rw [if_pos ha]
          refine ⟨rfl, rfl, ?_, rfl, ?_, rfl⟩
          · dsimp only
            rw [Function.update_noteq (show (2 : Nat) ≠ 1 by decide) _ _]
          · dsimp only
            rw [Function.update_same]
            rfl
      | idle => rw [hg] at hc; simp [genCtrl] at hc
      | inlineSum idea => rw [hg] at hc; simp [genCtrl] at hc
      | returned => rw [hg] at hc; simp [genCtrl] at hc
      | fetching c' sum =>
          refine ⟨rfl, rfl, rfl, rfl, ?_, rfl⟩
          rw [hg] at hc ⊢; exact hc
      | finished c' =>
          refine ⟨rfl, rfl, rfl, rfl, ?_, rfl⟩
          rw [hg] at hc ⊢; exact hc
      | cancelled c' =>
          refine ⟨rfl, rfl, rfl, rfl, ?_, rfl⟩
          rw [hg] at hc ⊢; exact hc
      | errored c' =>
          refine ⟨rfl, rfl, rfl, rfl, ?_, rfl⟩
          rw [hg] at hc ⊢; exact hc
  | chunk t => simp [isTail1] at he
  | sumArrive r resp sv f => simp [isTail1] at he
  | genStart i => simp [isTail1] at he
  | genInline i resp => simp [isTail1] at he
  | genRespond i ok => simp [isTail1] at he
  | newIdea => simp [isTail1] at he
  | historyClick c => simp [isTail1] at he
  | refreshIssue => simp [isTail1] at he
  | refreshArrive r f => simp [isTail1] at he

theorem interleave_nil_right {xs ys zs : List Event} (h : Interleave xs ys zs)
    (hy : ys = []) : zs = xs := by
  induction h with
  | nil => rfl
  | left h ih => rw [ih hy]
  | right h ih => cases hy

theorem dead_run (xs : List Event) : ∀ (s : HookState) (c : Nat),
    (∀ e ∈ xs, isTail1 e = true) →
    genCtrl (s.gens 1) = some c → c ∈ s.aborted →
    (run s xs).generatedScript = s.generatedScript ∧
    (run s xs).saves = s.saves := by
  induction xs with
  | nil => intro s c _ _ _; exact ⟨rfl, rfl⟩
  | cons e t ih =>
      intro s c hall hc ha
      obtain ⟨p1, p2, -, p4, p5, -⟩ :=
        tail1_frame s e c (hall e (List.mem_cons_self _ _)) hc ha
      obtain ⟨g1, g2⟩ := ih (step s e) c
        (fun x hx => hall x (List.mem_cons_of_mem _ hx)) p5 (by rw [p4]; exact ha)
      exact ⟨g1.trans p1, g2.trans p2⟩

theorem stream_stage (sid : Nat) (cv : List Convo) (sum2 : String) (c1 c2 : Nat) :
    ∀ {xs ys zs : List Event}, Interleave xs ys zs →
    ∀ (f2s : List String) (acc : String) (s : HookState),
      ys = f2s.map (Event.genFrag 2) ++ [Event.genDone 2 (some sid) cv] →
      (∀ e ∈ xs, isTail1 e = true) →
      genCtrl (s.gens 1) = some c1 → c1 ∈ s.aborted →
      s.gens 2 = .streaming c2 sum2 acc → c2 ∉ s.aborted →
      s.generatedScript = acc →
      (run s zs).saves = s.saves ++ [(sum2, f2s.foldl (· ++ ·) acc)] ∧
      (run s zs).generatedScript = f2s.foldl (· ++ ·) acc := by
  intro xs ys zs hint
  induction hint with
  | nil =>
      intro f2s acc s hys _ _ _ _ _ _
      exact absurd hys (by simp)
  | @left x xs' ys' zs' h ih =>
      intro f2s acc s hys hall hc1 ha1 hg2 hna2 hscript
      obtain ⟨p1, p2, p3, p4, p5, -⟩ :=
        tail1_frame s x c1 (hall x (List.mem_cons_self _ _)) hc1 ha1
      have hrec := ih f2s acc (step s x) hys
        (fun e he => hall e (List.mem_cons_of_mem _ he))
        p5 (by rw [p4]; exact ha1) (by rw [p3]; exact hg2)
        (by rw [p4]; exact hna2) (by rw [p1]; exact hscript)
      refine ⟨?_, hrec.2⟩
      calc (run (step s x) zs').saves
          = (step s x).saves ++ [(sum2, f2s.foldl (· ++ ·) acc)] := hrec.1
        _ = s.saves ++ [(sum2, f2s.foldl (· ++ ·) acc)] := by rw [p2]
  | @right y xs' ys' zs' h ih =>
      intro f2s acc s hys hall hc1 ha1 hg2 hna2 hscript
      cases f2s with
      | nil =>
          simp only [List.map_nil, List.nil_append] at hys
          injection hys with hy hys'
          subst hy
          subst hys'
          have hzs : zs' = xs' := interleave_nil_right h rfl
          subst hzs
          -- the stream end of the fresh call: persist and finish
          have hstep :
              (step s (Event.genDone 2 (some sid) cv)).saves
                  = s.saves ++ [(sum2, acc)] ∧
              (step s (Event.genDone 2 (some sid) cv)).generatedScript
                  = s.generatedScript ∧
              genCtrl ((step s (Event.genDone 2 (some sid) cv)).gens 1) = some c1 ∧
              (step s (Event.genDone 2 (some sid) cv)).aborted = s.aborted := by
            simp only [step]
            unfold handleGenerateScriptDone
            rw [hg2]
            dsimp only
            rw [if_neg hna2]
            rw [fetchRun_frame_of_cond_false _ _ _ (autoLoadCond_false_of_id _ _ _ sid rfl)]
            refine ⟨rfl, rfl, ?_, rfl⟩
            dsimp only
            rw [Function.update_noteq (show (1 : Nat) ≠ 2 by decide) _ _]
            exact hc1
          obtain ⟨q1, q2, q3, q4⟩ := hstep
          obtain ⟨d1, d2⟩ := dead_run zs' (step s (Event.genDone 2 (some sid) cv)) c1
            hall q3 (by rw [q4]; exact ha1)
          constructor
          · rw [show run s (Event.genDone 2 (some sid) cv :: zs')
                = run (step s (Event.genDone 2 (some sid) cv)) zs' from rfl, d2, q1]
            rfl
          · rw [show run s (Event.genDone 2 (some sid) cv :: zs')
                = run (step s (Event.genDone 2 (some sid) cv)) zs' from rfl, d1, q2,
              hscript]
            rfl
      | cons f2 rest =>
          simp only [List.map_cons, List.cons_append] at hys
          injection hys with hy hys'
          subst hy
          have hstep :
              (step s (Event.genFrag 2 f2)).generatedScript = acc ++ f2 ∧
              (step s (Event.genFrag 2 f2)).saves = s.saves ∧
              (step s (Event.genFrag 2 f2)).gens 2 = .streaming c2 sum2 (acc ++ f2) ∧
              (step s (Event.genFrag 2 f2)).aborted = s.aborted ∧
              genCtrl ((step s (Event.genFrag 2 f2)).gens 1) = some c1 := by
            simp only [step]
            unfold handleGenerateScriptFrag
            rw [hg2]
            dsimp only
            rw [if_neg hna2]
            refine ⟨rfl, rfl, ?_, rfl, ?_⟩
            · dsimp only
              rw [Function.update_same]
            · dsimp only
              rw [Function.update_noteq (show (1 : Nat) ≠ 2 by decide) _ _]
              exact hc1
          obtain ⟨q1, q2, q3, q4, q5⟩ := hstep
          have hrec := ih rest (acc ++ f2) (step s (Event.genFrag 2 f2)) hys' hall
            q5 (by rw [q4]; exact ha1) q3 (by rw [q4]; exact hna2) q1
          constructor
          · rw [show run s (Event.genFrag 2 f2 :: zs')
                = run (step s (Event.genFrag 2 f2)) zs' from rfl, hrec.1, q2]
            rfl
          · rw [show run s (Event.genFrag 2 f2 :: zs')
                = run (step s (Event.genFrag 2 f2)) zs' from rfl, hrec.2]
            rfl

theorem fetch_stage (sid : Nat) (cv : List Convo) (sum2 : String) (c1 c2 : Nat) :
    ∀ {xs ys zs : List Event}, Interleave xs ys zs →
    ∀ (f2s : List String) (s : HookState),
      ys = Event.genRespond 2 true ::
        (f2s.map (Event.genFrag 2) ++ [Event.genDone 2 (some sid) cv]) →
      (∀ e ∈ xs, isTail1 e = true) →
      genCtrl (s.gens 1) = some c1 → c1 ∈ s.aborted →
      s.gens 2 = .fetching c2 sum2 → c2 ∉ s.aborted →
      s.generatedScript = "" →
      (run s zs).saves = s.saves ++ [(sum2, f2s.foldl (· ++ ·) "")] ∧
      (run s zs).generatedScript = f2s.foldl (· ++ ·) "" := by
  intro xs ys zs hint
  induction hint with
  | nil =>
      intro f2s s hys _ _ _ _ _ _
      exact absurd hys (by simp)
  | @left x xs' ys' zs' h ih =>
      intro f2s s hys hall hc1 ha1 hg2 hna2 hscript
      obtain ⟨p1, p2, p3, p4, p5, -⟩ :=
        tail1_frame s x c1 (hall x (List.mem_cons_self _ _)) hc1 ha1
      have hrec := ih f2s (step s x) hys
        (fun e he => hall e (List.mem_cons_of_mem _ he))
        p5 (by rw [p4]; exact ha1) (by rw [p3]; exact hg2)
        (by rw [p4]; exact hna2) (by rw [p1]; exact hscript)
      refine ⟨?_, hrec.2⟩
      calc (run (step s x) zs').saves
          = (step s x).saves ++ [(sum2, f2s.foldl (· ++ ·) "")] := hrec.1
        _ = s.saves ++ [(sum2, f2s.foldl (· ++ ·) "")] := by rw [p2]
  | @right y xs' ys' zs' h ih =>
      intro f2s s hys hall hc1 ha1 hg2 hna2 hscript
      injection hys with hy hys'
      subst hy
      have hstep :
          (step s (Event.genRespond 2 true)).generatedScript = "" ∧
          (step s (Event.genRespond 2 true)).saves = s.saves ∧
          (step s (Event.genRespond 2 true)).gens 2 = .streaming c2 sum2 "" ∧
          (step s (Event.genRespond 2 true)).aborted = s.aborted ∧
          genCtrl ((step s (Event.genRespond 2 true)).gens 1) = some c1 := by
        simp only [step]
        unfold handleGenerateScriptRespond
        rw [hg2]
        dsimp only
        rw [if_neg hna2, if_pos rfl]
        refine ⟨hscript, rfl, ?_, rfl, ?_⟩
        · dsimp only
          rw [Function.update_same]
        · dsimp only
          rw [Function.update_noteq (show (1 : Nat) ≠ 2 by decide) _ _]
          exact hc1
      obtain ⟨q1, q2, q3, q4, q5⟩ := hstep
      have hrec := stream_stage sid cv sum2 c1 c2 h f2s ""
        (step s (Event.genRespond 2 true)) hys' hall
        q5 (by rw [q4]; exact ha1) q3 (by rw [q4]; exact hna2) q1
      constructor
      · rw [show run s (Event.genRespond 2 true :: zs')
            = run (step s (Event.genRespond 2 true)) zs' from rfl, hrec.1, q2]
      · rw [show run s (Event.genRespond 2 true :: zs')
            = run (step s (Event.genRespond 2 true)) zs' from rfl, hrec.2]

theorem genStart_eval (s0 : HookState) (i : Nat) (c : Nat)
    (hcur : s0.currentCtrl = some c) (hsum : s0.currentSummary ≠ "") :
    handleGenerateScriptStart s0 i =
      { s0 with aborted := c :: s0.aborted, generatedScript := "",
                isGeneratingScript := true,
                gens := Function.update s0.gens i (.fetching s0.nextCtrl s0.currentSummary),
                currentCtrl := some s0.nextCtrl, nextCtrl := s0.nextCtrl + 1 } := by
  unfold handleGenerateScriptStart
  rw [hcur]
  dsimp only
  rw [if_pos hsum, if_neg hsum, if_pos hsum]

/-- Claim C2: a `handleGenerateScript` call made while a previous
invocation's stream is in flight aborts that stream's controller before
creating its own; every later read of the superseded stream then rejects
silently, so for EVERY interleaving of the superseded invocation's
remaining events with the new invocation's stream, exactly one record is
persisted (the new invocation's) and `generatedScript` ends holding
exactly the new invocation's fragments in order. -/
theorem C2_generate_cancels_previous (s0 : HookState) (c1 : Nat) (sum1 acc1 : String)
    (f2s : List String) (r1 zs : List Event) (sid : Nat) (cv : List Convo)
    (hg1 : s0.gens 1 = .streaming c1 sum1 acc1)
    (hcur : s0.currentCtrl = some c1)
    (hfresh : s0.nextCtrl ∉ s0.aborted) (hfc : s0.nextCtrl ≠ c1)
    (hsum : s0.currentSummary ≠ "")
    (hr1 : ∀ e ∈ r1, isTail1 e = true)
    (hint : Interleave r1 (Event.genRespond 2 true ::
      (f2s.map (Event.genFrag 2) ++ [Event.genDone 2 (some sid) cv])) zs) :
    (run s0 (Event.genStart 2 :: zs)).saves
      = s0.saves ++ [(s0.currentSummary, f2s.foldl (· ++ ·) "")] ∧
    (run s0 (Event.genStart 2 :: zs)).generatedScript = f2s.foldl (· ++ ·) "" := by
  have heval : step s0 (Event.genStart 2) =
      { s0 with aborted := c1 :: s0.aborted, generatedScript := "",
                isGeneratingScript := true,
                gens := Function.update s0.gens 2 (.fetching s0.nextCtrl s0.currentSummary),
                currentCtrl := some s0.nextCtrl, nextCtrl := s0.nextCtrl + 1 } := by
    simp only [step]
    exact genStart_eval s0 2 c1 hcur hsum
  have hrun : run s0 (Event.genStart 2 :: zs) = run (step s0 (Event.genStart 2)) zs := rfl
  have hrec := fetch_stage sid cv s0.currentSummary c1 s0.nextCtrl hint f2s
    (step s0 (Event.genStart 2)) rfl hr1
    (by rw [heval]
        show genCtrl (Function.update s0.gens 2
          (GenRun.fetching s0.nextCtrl s0.currentSummary) 1) = some c1
        rw [Function.update_noteq (show (1 : Nat) ≠ 2 by decide) _ _, hg1]
        rfl)
    (by rw [heval]
        exact List.mem_cons_self _ _)
    (by rw [heval]
        show Function.update s0.gens 2
          (GenRun.fetching s0.nextCtrl s0.currentSummary) 2 = _
        rw [Function.update_same])
    (by rw [heval]
        show s0.nextCtrl ∉ c1 :: s0.aborted
        intro hmem
        rcases List.mem_cons.mp hmem with h | h
        · exact hfc h
        · exact hfresh h)
    (by rw [heval])
  rw [hrun]
  refine ⟨?_, hrec.2⟩
  rw [hrec.1, heval]

theorem C2_witness :
    ((run { initHook with currentSummary := "S" }
        [Event.genStart 1, Event.genRespond 1 true, Event.genFrag 1 "x"]).gens 1
      = GenRun.streaming 0 "S" "x" ∧
      (run { initHook with currentSummary := "S" }
        [Event.genStart 1, Event.genRespond 1 true, Event.genFrag 1 "x"]).currentCtrl
        = some 0) ∧
    (run (run { initHook with currentSummary := "S" }
        [Event.genStart 1, Event.genRespond 1 true, Event.genFrag 1 "x"])
      (Event.genStart 2 ::
        [Event.genFrag 1 "y", Event.genRespond 2 true, Event.genFrag 2 "u",
         Event.genDone 1 (some 9) [], Event.genFrag 2 "v",
         Event.genDone 2 (some 7) []])).saves = [("S", "uv")] ∧
    (run (run { initHook with currentSummary := "S" }
        [Event.genStart 1, Event.genRespond 1 true, Event.genFrag 1 "x"])
      (Event.genStart 2 ::
        [Event.genFrag 1 "y", Event.genRespond 2 true, Event.genFrag 2 "u",
         Event.genDone 1 (some 9) [], Event.genFrag 2 "v",
         Event.genDone 2 (some 7) []])).generatedScript = "uv" := by
  have hmain := C2_generate_cancels_previous
    (run { initHook with currentSummary := "S" }
      [Event.genStart 1, Event.genRespond 1 true, Event.genFrag 1 "x"])
    0 "S" "x" ["u", "v"]
    [Event.genFrag 1 "y", Event.genDone 1 (some 9) []]
    [Event.genFrag 1 "y", Event.genRespond 2 true, Event.genFrag 2 "u",
     Event.genDone 1 (some 9) [], Event.genFrag 2 "v", Event.genDone 2 (some 7) []]
    7 [] (by decide) (by decide) (by decide) (by decide) (by decide) (by decide)
    (Interleave.left (.right (.right (.left (.right (.right .nil))))))
  refine ⟨⟨by decide, by decide⟩, ?_, ?_⟩
  · rw [hmain.1]; decide
  · rw [hmain.2]; decide

/-! ## Stream failure and cancellation outcomes (claim C6) -/

theorem genStart_eval_none (s0 : HookState) (i : Nat)
    (hcur : s0.currentCtrl = none) (hsum : s0.currentSummary ≠ "") :
    handleGenerateScriptStart s0 i =
      { s0 with generatedScript := "", isGeneratingScript := true,
                gens := Function.update s0.gens i (.fetching s0.nextCtrl s0.currentSummary),
                currentCtrl := some s0.nextCtrl, nextCtrl := s0.nextCtrl + 1 } := by
  unfold handleGenerateScriptStart
  rw [hcur]
  dsimp only
  rw [if_pos hsum, if_neg hsum, if_pos hsum]

theorem respond_ok_eval (s : HookState) (i c : Nat) (sum : String)
    (hg : s.gens i = .fetching c sum) (hna : c ∉ s.aborted) :
    handleGenerateScriptRespond s i true =
      { s with gens := Function.update s.gens i (.streaming c sum "") } := by
  unfold handleGenerateScriptRespond
  rw [hg]
  dsimp only
  rw [if_neg hna, if_pos rfl]

theorem respond_error_eval (s : HookState) (i c : Nat) (sum : String)
    (hg : s.gens i = .fetching c sum) (hna : c ∉ s.aborted) :
    handleGenerateScriptRespond s i false =
      { s with gens := Function.update s.gens i (.errored c),
               errorToasts := s.errorToasts + 1,
               isGeneratingScript := false, currentCtrl := none } := by
  unfold handleGenerateScriptRespond
  rw [hg]
  dsimp only
  rw [if_neg hna, if_neg (show ¬(false = true) by decide)]

theorem respond_cancelled_eval (s : HookState) (i c : Nat) (sum : String) (ok : Bool)
    (hg : s.gens i = .fetching c sum) (hab : c ∈ s.aborted) :
    handleGenerateScriptRespond s i ok =
      { s with gens := Function.update s.gens i (.cancelled c),
               isGeneratingScript := false, currentCtrl := none } := by
  unfold handleGenerateScriptRespond
  rw [hg]
  dsimp only
  rw [if_pos hab]

theorem frag_alive_eval (s : HookState) (i c : Nat) (sum acc f : String)
    (hg : s.gens i = .streaming c sum acc) (hna : c ∉ s.aborted) :
    handleGenerateScriptFrag s i f =
      { s with generatedScript := acc ++ f,
               gens := Function.update s.gens i (.streaming c sum (acc ++ f)) } := by
  unfold handleGenerateScriptFrag
  rw [hg]
  dsimp only
  rw [if_neg hna]

theorem done_alive_eval (s : HookState) (i c : Nat) (sum acc : String) (sid : Nat)
    (cv : List Convo)
    (hg : s.gens i = .streaming c sum acc) (hna : c ∉ s.aborted) :
    handleGenerateScriptDone s i (some sid) cv =
      { s with saves := s.saves ++ [(sum, acc)], activeConversationId := some sid,
               conversations := cv,
               gens := Function.update s.gens i (.finished c),
               isGeneratingScript := false, currentCtrl := none } := by
  unfold handleGenerateScriptDone
  rw [hg]
  dsimp only
  rw [if_neg hna]
  rw [fetchRun_frame_of_cond_false _ _ _ (autoLoadCond_false_of_id _ _ _ sid rfl)]

theorem alive_frags_run (i c : Nat) (sum : String) (f1s : List String) :
    ∀ (s : HookState) (acc : String),
    s.gens i = .streaming c sum acc → c ∉ s.aborted → s.generatedScript = acc →
    (run s (f1s.map (Event.genFrag i))).gens i
        = .streaming c sum (f1s.foldl (· ++ ·) acc) ∧
    (run s (f1s.map (Event.genFrag i))).generatedScript = f1s.foldl (· ++ ·) acc ∧
    (run s (f1s.map (Event.genFrag i))).aborted = s.aborted ∧
    (run s (f1s.map (Event.genFrag i))).saves = s.saves ∧
    (run s (f1s.map (Event.genFrag i))).errorToasts = s.errorToasts := by
  induction f1s with
  | nil => intro s acc h1 _ h3; exact ⟨h1, h3, rfl, rfl, rfl⟩
  | cons f t ih =>
      intro s acc h1 h2 h3
      simp only [List.map_cons]
      have hstep : step s (Event.genFrag i f) =
          { s with generatedScript := acc ++ f,
                   gens := Function.update s.gens i (.streaming c sum (acc ++ f)) } := by
        simp only [step]
        exact frag_alive_eval s i c sum acc f h1 h2
      have hrec := ih (step s (Event.genFrag i f)) (acc ++ f)
        (by rw [hstep]; exact Function.update_same _ _ _)
        (by rw [hstep]; exact h2)
        (by rw [hstep])
      refine ⟨hrec.1, hrec.2.1, ?_, ?_, ?_⟩
      · rw [show run s (Event.genFrag i f :: t.map (Event.genFrag i))
            = run (step s (Event.genFrag i f)) (t.map (Event.genFrag i)) from rfl,
          hrec.2.2.1, hstep]
      · rw [show run s (Event.genFrag i f :: t.map (Event.genFrag i))
            = run (step s (Event.genFrag i f)) (t.map (Event.genFrag i)) from rfl,
          hrec.2.2.2.1, hstep]
      · rw [show run s (Event.genFrag i f :: t.map (Event.genFrag i))
            = run (step s (Event.genFrag i f)) (t.map (Event.genFrag i)) from rfl,
          hrec.2.2.2.2, hstep]

theorem clean_stream_run (body : List String) (i sid : Nat) (cv : List Convo)
    (s0 : HookState)
    (hcur : s0.currentCtrl = none) (hab : s0.aborted = [])
    (hsum : s0.currentSummary ≠ "") :
    (run s0 (clientStreamEvents i body (some sid) cv)).saves
      = s0.saves ++ [(s0.currentSummary, body.foldl (· ++ ·) "")] ∧
    (run s0 (clientStreamEvents i body (some sid) cv)).errorToasts = s0.errorToasts := by
  have h1 : step s0 (Event.genStart i) =
      { s0 with generatedScript := "", isGeneratingScript := true,
                gens := Function.update s0.gens i (.fetching s0.nextCtrl s0.currentSummary),
                currentCtrl := some s0.nextCtrl, nextCtrl := s0.nextCtrl + 1 } := by
    simp only [step]
    exact genStart_eval_none s0 i hcur hsum
  have hg1 : (step s0 (Event.genStart i)).gens i
      = GenRun.fetching s0.nextCtrl s0.currentSummary := by
    rw [h1]
    exact Function.update_same _ _ _
  have hna1 : s0.nextCtrl ∉ (step s0 (Event.genStart i)).aborted := by
    rw [h1]
    show s0.nextCtrl ∉ s0.aborted
    rw [hab]
    exact List.not_mem_nil _
  have h2 : step (step s0 (Event.genStart i)) (Event.genRespond i true) =
      { step s0 (Event.genStart i) with
        gens := Function.update (step s0 (Event.genStart i)).gens i
          (.streaming s0.nextCtrl s0.currentSummary "") } :=
    respond_ok_eval _ i s0.nextCtrl s0.currentSummary hg1 hna1
  have hfr := alive_frags_run i s0.nextCtrl s0.currentSummary body
    (step (step s0 (Event.genStart i)) (Event.genRespond i true)) ""
    (by rw [h2]; exact Function.update_same _ _ _)
    (by rw [h2, h1]
        show s0.nextCtrl ∉ s0.aborted
        rw [hab]
        exact List.not_mem_nil _)
    (by rw [h2, h1])
  have hsplit : run s0 (clientStreamEvents i body (some sid) cv)
      = step (run (step (step s0 (Event.genStart i)) (Event.genRespond i true))
          (body.map (Event.genFrag i))) (Event.genDone i (some sid) cv) := by
    unfold clientStreamEvents run
    rw [List.foldl_cons, List.foldl_cons, List.foldl_append, List.foldl_cons,
      List.foldl_nil]
  have hna2 : s0.nextCtrl ∉ (run (step (step s0 (Event.genStart i))
      (Event.genRespond i true)) (body.map (Event.genFrag i))).aborted := by
    rw [hfr.2.2.1, h2]
    exact hna1
  have hdone : step (run (step (step s0 (Event.genStart i)) (Event.genRespond i true))
      (body.map (Event.genFrag i))) (Event.genDone i (some sid) cv)
      = { run (step (step s0 (Event.genStart i)) (Event.genRespond i true))
            (body.map (Event.genFrag i)) with
          saves := (run (step (step s0 (Event.genStart i)) (Event.genRespond i true))
            (body.map (Event.genFrag i))).saves
              ++ [(s0.currentSummary, body.foldl (· ++ ·) "")],
          activeConversationId := some sid, conversations := cv,
          gens := Function.update (run (step (step s0 (Event.genStart i))
            (Event.genRespond i true)) (body.map (Event.genFrag i))).gens i
              (.finished s0.nextCtrl),
          isGeneratingScript := false, currentCtrl := none } :=
    done_alive_eval _ i s0.nextCtrl s0.currentSummary (body.foldl (· ++ ·) "") sid cv
      hfr.1 hna2
  rw [hsplit, hdone]
  constructor
  · show (run (step (step s0 (Event.genStart i)) (Event.genRespond i true))
        (body.map (Event.genFrag i))).saves
          ++ [(s0.currentSummary, body.foldl (· ++ ·) "")]
      = s0.saves ++ [(s0.currentSummary, body.foldl (· ++ ·) "")]
    rw [hfr.2.2.2.1, h2, h1]
  · show (run (step (step s0 (Event.genStart i)) (Event.genRespond i true))
        (body.map (Event.genFrag i))).errorToasts = s0.errorToasts
    rw [hfr.2.2.2.2, h2, h1]

/-- Claim C6 counterexample: the generation service fails mid-stream after
producing "A".  The endpoint converts the failure into the in-band marker
"\n\n[Error: Failed to generate script]" and closes the stream normally
with status 200; the client consumes it as a normal completion — no error
toast is raised (indistinguishable from a fully successful run, let alone
from a cancellation) and the accumulated output INCLUDING the marker is
persisted to the record store as the final script. -/
theorem C6_counterexample :
    (streamPOST (some "S") ["A"] true).1 = 200 ∧
    (run { initHook with currentSummary := "S" }
        (clientStreamEvents 1 (streamPOST (some "S") ["A"] true).2 (some 7) [])).saves
      = [("S", "A" ++ streamErrorMarker)] ∧
    (run { initHook with currentSummary := "S" }
        (clientStreamEvents 1 (streamPOST (some "S") ["A"] true).2 (some 7) [])).errorToasts
      = 0 := by
  refine ⟨rfl, ?_, ?_⟩ <;> decide

/-- Claim C6 amended: failures the client can see are distinguishable from
cancellation and never persisted — a missing or empty context summary
yields status 400 with an empty body, and a non-ok response raises the
destructive toast, marks the invocation `errored` and persists nothing,
while a response arriving under an aborted controller is silently
`cancelled` with no toast.  HOWEVER, a generation-service failure
mid-stream is not surfaced as an error at all: the endpoint writes the
in-band marker and closes the stream normally with status 200, and the
client persists the accumulated output including the marker as a normal
completion, raising no error toast. -/
theorem C6_stream_failure_modes (chunks : List String) (s s' s0 : HookState)
    (i j ip c c' : Nat) (sum sum' : String) (sid : Nat) (cv : List Convo)
    (h1 : s.gens i = .fetching c sum) (h2 : c ∉ s.aborted)
    (h3 : s'.gens j = .fetching c' sum') (h4 : c' ∈ s'.aborted)
    (h5 : s0.currentCtrl = none) (h6 : s0.aborted = [])
    (h7 : s0.currentSummary ≠ "") :
    streamPOST none chunks true = (400, []) ∧
    streamPOST (some "") chunks false = (400, []) ∧
    ((handleGenerateScriptRespond s i false).errorToasts = s.errorToasts + 1 ∧
      (handleGenerateScriptRespond s i false).saves = s.saves ∧
      (handleGenerateScriptRespond s i false).gens i = .errored c) ∧
    ((handleGenerateScriptRespond s' j true).errorToasts = s'.errorToasts ∧
      (handleGenerateScriptRespond s' j true).saves = s'.saves ∧
      (handleGenerateScriptRespond s' j true).gens j = .cancelled c') ∧
    ((streamPOST (some s0.currentSummary) chunks true).1 = 200 ∧
      (run s0 (clientStreamEvents ip
          (streamPOST (some s0.currentSummary) chunks true).2 (some sid) cv)).saves
        = s0.saves ++ [(s0.currentSummary,
            chunks.foldl (· ++ ·) "" ++ streamErrorMarker)] ∧
      (run s0 (clientStreamEvents ip
          (streamPOST (some s0.currentSummary) chunks true).2 (some sid) cv)).errorToasts
        = s0.errorToasts) := by
  have hpost : streamPOST (some s0.currentSummary) chunks true
      = (200, chunks ++ [streamErrorMarker]) := by
    unfold streamPOST
    simp only [Option.getD_some]
    rw [if_neg h7]
    simp
  have hfold : (chunks ++ [streamErrorMarker]).foldl (· ++ ·) ""
      = chunks.foldl (· ++ ·) "" ++ streamErrorMarker := by
    rw [List.foldl_append]
    rfl
  refine ⟨rfl, rfl, ?_, ?_, ?_⟩
  · rw [respond_error_eval s i c sum h1 h2]
    exact ⟨rfl, rfl, Function.update_same _ _ _⟩
  · rw [respond_cancelled_eval s' j c' sum' true h3 h4]
    exact ⟨rfl, rfl, Function.update_same _ _ _⟩
  · rw [hpost]
    obtain ⟨g1, g2⟩ := clean_stream_run (chunks ++ [streamErrorMarker]) ip sid cv s0
      h5 h6 h7
    exact ⟨rfl, by rw [g1, hfold], g2⟩

theorem C6_witness :
    (({ initHook with gens := Function.update initHook.gens 0 (GenRun.fetching 0 "S") }
        : HookState).gens 0 = GenRun.fetching 0 "S" ∧
      ({ initHook with
          gens := Function.update initHook.gens 0 (GenRun.fetching 5 "T"),
          aborted := [5] } : HookState).gens 0 = GenRun.fetching 5 "T" ∧
      (5 : Nat) ∈ [5] ∧ ({ initHook with currentSummary := "S" } : HookState).currentSummary ≠ "") ∧
    (handleGenerateScriptRespond
        { initHook with gens := Function.update initHook.gens 0 (GenRun.fetching 0 "S") }
        0 false).errorToasts = 1 ∧
    (handleGenerateScriptRespond
        { initHook with
          gens := Function.update initHook.gens 0 (GenRun.fetching 5 "T"),
          aborted := [5] } 0 true).errorToasts = 0 ∧
    (run { initHook with currentSummary := "S" }
        (clientStreamEvents 1
          (streamPOST (some ({ initHook with currentSummary := "S" }
            : HookState).currentSummary) ["A"] true).2 (some 7) [])).saves
      = [("S", List.foldl (· ++ ·) "" ["A"] ++ streamErrorMarker)] := by
  have hmain := C6_stream_failure_modes ["A"]
    { initHook with gens := Function.update initHook.gens 0 (GenRun.fetching 0 "S") }
    { initHook with
      gens := Function.update initHook.gens 0 (GenRun.fetching 5 "T"),
      aborted := [5] }
    { initHook with currentSummary := "S" }
    0 0 1 0 5 "S" "T" 7 []
    (by decide) (by decide) (by decide) (by decide) rfl rfl (by decide)
  refine ⟨⟨by decide, by decide, by decide, by decide⟩, ?_, ?_, ?_⟩
  · rw [hmain.2.2.1.1]
    decide
  · rw [hmain.2.2.2.1.1]
    decide
  · rw [hmain.2.2.2.2.2.1]
    decide

end Studio
